import Mathlib

/-!
Verification of the wasmbin binary codec core.

This development gives a shallow embedding of the wasmbin WebAssembly codec:
byte streams are `List Nat`, decoders are functions from a byte list to an
`Except` of a value and the unconsumed tail, and encoders are pure functions
to byte lists.  The instruction grammar, block types, memory arguments,
aligned memory arguments and catch clauses are translated from the crate's
sources (`src/instructions/mod.rs`, `src/types.rs`, `src/indices.rs`,
`src/instructions/threads.rs`, `src/instructions/exceptions.rs`).  The wire
primitives (LEB128 integers, byte reads, counted sequences) and the module
skeleton live in crate modules that are not available here (`src/io.rs`,
`src/builtins.rs`, `src/module.rs`, `src/sections.rs`); those are modelled
from the specification document and are marked as such in their doc comments.

The embedding fixes the base build configuration: the feature-gated grammar
(`exception-handling`, `threads`) is excluded from the `Instruction` sum,
matching a build with the optional cargo features disabled.  The
exception-handling `Catch` clause and the threads `AlignedMemArg` are
modelled standalone, as their own codecs do not depend on that wiring.
-/

namespace Wasmbin

/-- Path frame recorded while decoding descends, used for diagnostics:
a sum-variant name, a field name, or a sequence index. -/
inductive PathItem where
  | name (s : String)
  | variant (s : String)
  | index (i : Nat)
deriving DecidableEq, Repr

/-- Terminal cause of a decode failure. -/
inductive DecodeCause where
  | unexpectedEof
  | unsupportedDiscriminant (value : Nat)
  | leb128Overflow
  | intOutOfRange
deriving DecidableEq, Repr

/-- Structured decode error: terminal cause plus the path of frames,
innermost frame first. -/
structure DecodeError where
  cause : DecodeCause
  path : List PathItem
deriving DecidableEq, Repr

/-- Wrapping of an error with one more path frame as it bubbles up
(`DecodeError::in_path` in the crate). -/
def DecodeError.inPath (e : DecodeError) (p : PathItem) : DecodeError :=
  { e with path := e.path ++ [p] }

/-- Modelled from the spec: reading a single byte from the input source;
end of input is an error (`src/io.rs` and `src/builtins.rs` are not under
`src/`). -/
def decodeU8 : List Nat → Except DecodeError (Nat × List Nat)
  | [] => .error ⟨.unexpectedEof, []⟩
  | b :: r => .ok (b, r)

/-- Modelled from the spec: the unsigned LEB128 core reads 7-bit groups
little-endian, at most `groups` of them; a continuation bit still set after
the last permissible group is an overflow error (`src/builtins.rs` is not
under `src/`). -/
def decodeULebCore : Nat → List Nat → Except DecodeError (Nat × List Nat)
  | 0, _ => .error ⟨.leb128Overflow, []⟩
  | _ + 1, [] => .error ⟨.unexpectedEof, []⟩
  | groups + 1, b :: r =>
    if b < 128 then .ok (b, r)
    else
      match decodeULebCore groups r with
      | .error e => .error e
      | .ok (v, rest) => .ok (v * 128 + (b - 128), rest)

/-- Modelled from the spec: the u32 decoder accepts up to 5 LEB128 groups,
tolerates non-minimal (overlong) encodings, and errors when bits above the
32-bit target width are set. -/
def decodeU32 (bytes : List Nat) : Except DecodeError (Nat × List Nat) :=
  match decodeULebCore 5 bytes with
  | .error e => .error e
  | .ok (v, rest) => if v < 2 ^ 32 then .ok (v, rest) else .error ⟨.leb128Overflow, []⟩

/-- Modelled from the spec: minimal canonical unsigned LEB128 emission,
fuelled at `groups` 7-bit groups. -/
def encodeULebAux : Nat → Nat → List Nat
  | 0, _ => []
  | groups + 1, n => if n < 128 then [n] else (n % 128 + 128) :: encodeULebAux groups (n / 128)

/-- Modelled from the spec: the u32 encoder emits the minimal canonical
LEB128 form (5 groups always suffice for a u32). -/
def encodeU32 (n : Nat) : List Nat := encodeULebAux 5 n

/-- Modelled from the spec: the signed LEB128 core reads 7-bit groups
little-endian and sign-extends from the high data bit of the last group;
at most `groups` groups are permissible. -/
def decodeSLebCore : Nat → List Nat → Except DecodeError (Int × List Nat)
  | 0, _ => .error ⟨.leb128Overflow, []⟩
  | _ + 1, [] => .error ⟨.unexpectedEof, []⟩
  | groups + 1, b :: r =>
    if b < 128 then
      .ok (if 64 ≤ b then (b : Int) - 128 else (b : Int), r)
    else
      match decodeSLebCore groups r with
      | .error e => .error e
      | .ok (v, rest) => .ok (v * 128 + ((b : Int) - 128), rest)

/-- Modelled from the spec: the i64 decoder accepts up to 10 signed LEB128
groups and errors when the decoded value falls outside the 64-bit signed
range. -/
def decodeI64 (bytes : List Nat) : Except DecodeError (Int × List Nat) :=
  match decodeSLebCore 10 bytes with
  | .error e => .error e
  | .ok (v, rest) =>
    if -(2 ^ 63) ≤ v ∧ v < 2 ^ 63 then .ok (v, rest) else .error ⟨.leb128Overflow, []⟩

/-- Modelled from the spec: the i32 decoder accepts up to 5 signed LEB128
groups and errors when the decoded value falls outside the 32-bit signed
range. -/
def decodeI32 (bytes : List Nat) : Except DecodeError (Int × List Nat) :=
  match decodeSLebCore 5 bytes with
  | .error e => .error e
  | .ok (v, rest) =>
    if -(2 ^ 31) ≤ v ∧ v < 2 ^ 31 then .ok (v, rest) else .error ⟨.leb128Overflow, []⟩

/-- Modelled from the spec: minimal canonical signed LEB128 emission,
fuelled at `groups` groups; a group is terminal when the remaining value is
the sign extension of the group's high data bit. -/
def encodeSLebAux : Nat → Int → List Nat
  | 0, _ => []
  | groups + 1, v =>
    let b := (v.emod 128).toNat
    let v2 := v.fdiv 128
    if (v2 = 0 ∧ b < 64) ∨ (v2 = -1 ∧ 64 ≤ b) then [b]
    else (b + 128) :: encodeSLebAux groups v2

/-- Modelled from the spec: minimal signed LEB128 emission for 64-bit signed
values (10 groups always suffice). -/
def encodeSLeb (v : Int) : List Nat := encodeSLebAux 10 v

/-- Modelled from the spec: `count` little-endian bytes of a fixed-width
integer (used by the 4- and 8-byte float payloads). -/
def bytesLE : Nat → Nat → List Nat
  | 0, _ => []
  | k + 1, n => n % 256 :: bytesLE k (n / 256)

/-- Modelled from the spec: reading `count` little-endian bytes back into a
fixed-width integer. -/
def decodeBytesLE : Nat → List Nat → Except DecodeError (Nat × List Nat)
  | 0, bytes => .ok (0, bytes)
  | _ + 1, [] => .error ⟨.unexpectedEof, []⟩
  | k + 1, b :: r =>
    match decodeBytesLE k r with
    | .error e => .error e
    | .ok (v, rest) => .ok (b + v * 256, rest)

/-! Newtyped u32 indices (`src/indices.rs`): one structure per index space,
each encoded and decoded as a plain u32 LEB128. -/

/-- Function index newtype (`src/indices.rs`). -/
structure FuncId where
  index : Nat
deriving DecidableEq, Repr

/-- Global index newtype (`src/indices.rs`). -/
structure GlobalId where
  index : Nat
deriving DecidableEq, Repr

/-- Label index newtype (`src/indices.rs`). -/
structure LabelId where
  index : Nat
deriving DecidableEq, Repr

/-- Local index newtype (`src/indices.rs`). -/
structure LocalId where
  index : Nat
deriving DecidableEq, Repr

/-- Memory index newtype (`src/indices.rs`). -/
structure MemId where
  index : Nat
deriving DecidableEq, Repr

/-- Table index newtype (`src/indices.rs`). -/
structure TableId where
  index : Nat
deriving DecidableEq, Repr

/-- Type index newtype (`src/indices.rs`). -/
structure TypeId where
  index : Nat
deriving DecidableEq, Repr

/-- Exception tag index newtype (`src/indices.rs`, behind the
exception-handling feature). -/
structure ExceptionId where
  index : Nat
deriving DecidableEq, Repr

def FuncId.encode (id : FuncId) : List Nat := encodeU32 id.index

def FuncId.decode (bytes : List Nat) : Except DecodeError (FuncId × List Nat) :=
  (decodeU32 bytes).map fun (v, r) => (⟨v⟩, r)

def GlobalId.encode (id : GlobalId) : List Nat := encodeU32 id.index

def GlobalId.decode (bytes : List Nat) : Except DecodeError (GlobalId × List Nat) :=
  (decodeU32 bytes).map fun (v, r) => (⟨v⟩, r)

def LabelId.encode (id : LabelId) : List Nat := encodeU32 id.index

def LabelId.decode (bytes : List Nat) : Except DecodeError (LabelId × List Nat) :=
  (decodeU32 bytes).map fun (v, r) => (⟨v⟩, r)

def LocalId.encode (id : LocalId) : List Nat := encodeU32 id.index

def LocalId.decode (bytes : List Nat) : Except DecodeError (LocalId × List Nat) :=
  (decodeU32 bytes).map fun (v, r) => (⟨v⟩, r)

def MemId.encode (id : MemId) : List Nat := encodeU32 id.index

def MemId.decode (bytes : List Nat) : Except DecodeError (MemId × List Nat) :=
  (decodeU32 bytes).map fun (v, r) => (⟨v⟩, r)

def TableId.encode (id : TableId) : List Nat := encodeU32 id.index

def TableId.decode (bytes : List Nat) : Except DecodeError (TableId × List Nat) :=
  (decodeU32 bytes).map fun (v, r) => (⟨v⟩, r)

def TypeId.encode (id : TypeId) : List Nat := encodeU32 id.index

def TypeId.decode (bytes : List Nat) : Except DecodeError (TypeId × List Nat) :=
  (decodeU32 bytes).map fun (v, r) => (⟨v⟩, r)

def ExceptionId.encode (id : ExceptionId) : List Nat := encodeU32 id.index

def ExceptionId.decode (bytes : List Nat) : Except DecodeError (ExceptionId × List Nat) :=
  (decodeU32 bytes).map fun (v, r) => (⟨v⟩, r)

/-- Reference type (`src/types.rs`); the exception-handling variant is
feature-gated off in the base configuration. -/
inductive RefType where
  | Func
  | Extern
deriving DecidableEq, Repr

/-- Discriminant byte of each `RefType` variant (`src/types.rs`). -/
def RefType.discriminant : RefType → Nat
  | .Func => 0x70
  | .Extern => 0x6F

/-- Discriminant dispatch for `RefType`. -/
def RefType.fromDiscriminant : Nat → Option RefType
  | 0x70 => some .Func
  | 0x6F => some .Extern
  | _ => none

def RefType.encode (t : RefType) : List Nat := [t.discriminant]

def RefType.decode (bytes : List Nat) : Except DecodeError (RefType × List Nat) :=
  match decodeU8 bytes with
  | .error e => .error e
  | .ok (d, r) =>
    match RefType.fromDiscriminant d with
    | some t => .ok (t, r)
    | none => .error ⟨.unsupportedDiscriminant d, []⟩

/-- Value type (`src/types.rs`): numeric types, the vector type, and a
flattened reference type. -/
inductive ValueType where
  | V128
  | F64
  | F32
  | I64
  | I32
  | Ref (r : RefType)
deriving DecidableEq, Repr

/-- Discriminant byte of each `ValueType` variant; the `Ref` variant carries
no discriminant of its own and is flattened into `RefType`'s. -/
def ValueType.discriminant : ValueType → Nat
  | .V128 => 0x7B
  | .F64 => 0x7C
  | .F32 => 0x7D
  | .I64 => 0x7E
  | .I32 => 0x7F
  | .Ref r => r.discriminant

/-- Discriminant dispatch for `ValueType`
(`ValueType::maybe_decode_with_discriminant`): `none` means the byte is not
a value-type discriminant at all. -/
def ValueType.fromDiscriminant (d : Nat) : Option ValueType :=
  match d with
  | 0x7B => some .V128
  | 0x7C => some .F64
  | 0x7D => some .F32
  | 0x7E => some .I64
  | 0x7F => some .I32
  | _ => (RefType.fromDiscriminant d).map .Ref

def ValueType.encode (t : ValueType) : List Nat := [t.discriminant]

def ValueType.decode (bytes : List Nat) : Except DecodeError (ValueType × List Nat) :=
  match decodeU8 bytes with
  | .error e => .error e
  | .ok (d, r) =>
    match ValueType.fromDiscriminant d with
    | some t => .ok (t, r)
    | none => .error ⟨.unsupportedDiscriminant d, []⟩

/-- The empty block type's marker byte (`src/types.rs`). -/
def OP_CODE_EMPTY_BLOCK : Nat := 0x40

/-- Block type (`src/types.rs`): empty, a single value type, or a type-section
index for multi-value blocks. -/
inductive BlockType where
  | Empty
  | Value (t : ValueType)
  | MultiValue (id : TypeId)
deriving DecidableEq, Repr

/-- Encoder for `BlockType` (`impl Encode for BlockType` in `src/types.rs`):
the empty marker byte, the value type's discriminant, or the index as a
signed LEB128 of `i64::from(id.index)`. -/
def BlockType.encode : BlockType → List Nat
  | .Empty => [OP_CODE_EMPTY_BLOCK]
  | .Value t => t.encode
  | .MultiValue id => encodeSLeb (id.index : Int)

/-- Decoder for `BlockType` (`impl Decode for BlockType` in `src/types.rs`):
read one byte; `0x40` is empty; a value-type discriminant is a single value
type; otherwise the byte is chained back in front of the stream, a signed
LEB128 is read as `i64`, and the result is converted to `u32`, erring when
it is out of range. -/
def BlockType.decode (bytes : List Nat) : Except DecodeError (BlockType × List Nat) :=
  match decodeU8 bytes with
  | .error e => .error e
  | .ok (discriminant, r) =>
    if discriminant = OP_CODE_EMPTY_BLOCK then .ok (.Empty, r)
    else
      match ValueType.fromDiscriminant discriminant with
      | some t => .ok (.Value t, r)
      | none =>
        match decodeI64 (discriminant :: r) with
        | .error e => .error (e.inPath (.variant "BlockType::MultiValue"))
        | .ok (asI64, rest) =>
          if 0 ≤ asI64 ∧ asI64 < 2 ^ 32 then
            .ok (.MultiValue ⟨asI64.toNat⟩, rest)
          else
            .error (DecodeError.inPath ⟨.intOutOfRange, []⟩ (.variant "BlockType::MultiValue"))

/-- Memory immediate argument (`src/instructions/mod.rs`). -/
structure MemArg where
  align_log2 : Nat
  memory : MemId
  offset : Nat
deriving DecidableEq, Repr

/-- The multi-memory flag bit carried in the wire form of the align field
(`src/instructions/mod.rs`). -/
def MULTI_MEMORY_FLAG : Nat := 1 <<< 6

/-- Encoder for `MemArg` (`impl Encode for MemArg`): a nonzero memory index
sets the flag bit on the align field and is emitted explicitly; a zero
memory index is implicit.  The offset follows in both cases. -/
def MemArg.encode (m : MemArg) : List Nat :=
  (if m.memory.index ≠ 0 then
    encodeU32 (m.align_log2 ||| MULTI_MEMORY_FLAG) ++ MemId.encode m.memory
  else
    encodeU32 m.align_log2) ++ encodeU32 m.offset

/-- Decoder for `MemArg` (`impl Decode for MemArg`): read the align field;
if the flag bit is set, mask it off (`align_log2 &= !MULTI_MEMORY_FLAG`,
the mask being `0xFFFFFFBF` on u32) and read an explicit memory index,
otherwise the memory is zero; then read the offset. -/
def MemArg.decode (bytes : List Nat) : Except DecodeError (MemArg × List Nat) :=
  match decodeU32 bytes with
  | .error e => .error e
  | .ok (align0, r) =>
    let step : Except DecodeError (Nat × MemId × List Nat) :=
      if align0 &&& MULTI_MEMORY_FLAG ≠ 0 then
        match MemId.decode r with
        | .error e => .error e
        | .ok (mem, r2) => .ok (align0 &&& 0xFFFFFFBF, mem, r2)
      else .ok (align0, ⟨0⟩, r)
    match step with
    | .error e => .error e
    | .ok (align, mem, r2) =>
      match decodeU32 r2 with
      | .error e => .error e
      | .ok (off, r3) => .ok (⟨align, mem, off⟩, r3)

/-- Variant of `MemArg` with a fixed compile-time alignment
(`src/instructions/threads.rs`); the const generic `ALIGN_LOG2` becomes an
explicit first argument of the codec functions. -/
structure AlignedMemArg where
  memory : MemId
  offset : Nat
deriving DecidableEq, Repr

/-- Conversion `From<AlignedMemArg<N>> for MemArg`
(`src/instructions/threads.rs`). -/
def AlignedMemArg.toMemArg (alignLog2 : Nat) (a : AlignedMemArg) : MemArg :=
  ⟨alignLog2, a.memory, a.offset⟩

/-- Encoder for `AlignedMemArg` (`src/instructions/threads.rs`): encode the
converted regular `MemArg`. -/
def AlignedMemArg.encode (alignLog2 : Nat) (a : AlignedMemArg) : List Nat :=
  (a.toMemArg alignLog2).encode

/-- Decoder for `AlignedMemArg` (`src/instructions/threads.rs`): decode a
regular `MemArg` and reject it with an unsupported-discriminant error when
the observed alignment differs from the fixed one.  The source passes
`arg.offset` as the reported discriminant value, and so does the model. -/
def AlignedMemArg.decode (alignLog2 : Nat) (bytes : List Nat) :
    Except DecodeError (AlignedMemArg × List Nat) :=
  match MemArg.decode bytes with
  | .error e => .error e
  | .ok (arg, r) =>
    if arg.align_log2 ≠ alignLog2 then
      .error ⟨.unsupportedDiscriminant arg.offset, []⟩
    else .ok (⟨arg.memory, arg.offset⟩, r)

/-- Private wire representation of a catch clause
(`CatchRepr` in `src/instructions/exceptions.rs`). -/
inductive CatchRepr where
  | Catch (exception : ExceptionId) (target : LabelId)
  | CatchRef (exception : ExceptionId) (target : LabelId)
  | CatchAll (target : LabelId)
  | CatchAllRef (target : LabelId)
deriving DecidableEq, Repr

/-- Encoder for `CatchRepr` following the derive's sum layout: one
discriminant byte then the fields in declaration order. -/
def CatchRepr.encode : CatchRepr → List Nat
  | .Catch e t => 0x00 :: (e.encode ++ t.encode)
  | .CatchRef e t => 0x01 :: (e.encode ++ t.encode)
  | .CatchAll t => 0x02 :: t.encode
  | .CatchAllRef t => 0x03 :: t.encode

/-- Decoder for `CatchRepr` following the derive's sum layout. -/
def CatchRepr.decode (bytes : List Nat) : Except DecodeError (CatchRepr × List Nat) :=
  match decodeU8 bytes with
  | .error e => .error e
  | .ok (d, r) =>
    match d with
    | 0x00 =>
      match ExceptionId.decode r with
      | .error e => .error e
      | .ok (exc, r2) =>
        match LabelId.decode r2 with
        | .error e => .error e
        | .ok (t, r3) => .ok (.Catch exc t, r3)
    | 0x01 =>
      match ExceptionId.decode r with
      | .error e => .error e
      | .ok (exc, r2) =>
        match LabelId.decode r2 with
        | .error e => .error e
        | .ok (t, r3) => .ok (.CatchRef exc t, r3)
    | 0x02 =>
      match LabelId.decode r with
      | .error e => .error e
      | .ok (t, r2) => .ok (.CatchAll t, r2)
    | 0x03 =>
      match LabelId.decode r with
      | .error e => .error e
      | .ok (t, r2) => .ok (.CatchAllRef t, r2)
    | _ => .error ⟨.unsupportedDiscriminant d, []⟩

/-- Public catch clause (`Catch` in `src/instructions/exceptions.rs`). -/
structure Catch where
  catch_ref : Bool
  exception_filter : Option ExceptionId
  target : LabelId
deriving DecidableEq, Repr

/-- The forward half of `encode_decode_as!(Catch, ...)`: each combination of
the public fields maps to exactly one wire variant. -/
def Catch.toRepr : Catch → CatchRepr
  | ⟨false, some exception, target⟩ => .Catch exception target
  | ⟨true, some exception, target⟩ => .CatchRef exception target
  | ⟨false, none, target⟩ => .CatchAll target
  | ⟨true, none, target⟩ => .CatchAllRef target

/-- The backward half of `encode_decode_as!(Catch, ...)`. -/
def Catch.ofRepr : CatchRepr → Catch
  | .Catch exception target => ⟨false, some exception, target⟩
  | .CatchRef exception target => ⟨true, some exception, target⟩
  | .CatchAll target => ⟨false, none, target⟩
  | .CatchAllRef target => ⟨true, none, target⟩

def Catch.encode (c : Catch) : List Nat := c.toRepr.encode

def Catch.decode (bytes : List Nat) : Except DecodeError (Catch × List Nat) :=
  (CatchRepr.decode bytes).map fun (rep, r) => (Catch.ofRepr rep, r)

/-- An indirect call's payload (`CallIndirect` in `src/instructions/mod.rs`). -/
structure CallIndirect where
  ty : TypeId
  table : TableId
deriving DecidableEq, Repr

/-- Encoder for `CallIndirect` following the derive's product layout:
fields concatenated in declaration order. -/
def CallIndirect.encode (c : CallIndirect) : List Nat :=
  c.ty.encode ++ c.table.encode

/-- Decoder for `CallIndirect` following the derive's product layout. -/
def CallIndirect.decode (bytes : List Nat) : Except DecodeError (CallIndirect × List Nat) :=
  match TypeId.decode bytes with
  | .error e => .error e
  | .ok (ty, r) =>
    match TableId.decode r with
    | .error e => .error e
    | .ok (table, r2) => .ok (⟨ty, table⟩, r2)

/-- A 32-bit float constant by its bit pattern; the wire form is 4 fixed
little-endian bytes, so the codec never interprets the payload as a float. -/
structure FloatConst32 where
  bits : Nat
deriving DecidableEq, Repr

/-- A 64-bit float constant by its bit pattern; the wire form is 8 fixed
little-endian bytes. -/
structure FloatConst64 where
  bits : Nat
deriving DecidableEq, Repr

/-- Mapping of a payload decoder's result into a wrapping constructor,
keeping the unconsumed tail. -/
def mapDecode {α β : Type} (f : α → β) :
    Except DecodeError (α × List Nat) → Except DecodeError (β × List Nat)
  | .error e => .error e
  | .ok (x, rest) => .ok (f x, rest)

/-- Modelled from the spec: decoding `count` consecutive items, wrapping
each item failure with its sequence index (the countable-sequence glue of
`src/builtins.rs` is not under `src/`). -/
def decodeCount {α : Type} (dec : List Nat → Except DecodeError (α × List Nat)) :
    Nat → Nat → List Nat → Except DecodeError (List α × List Nat)
  | 0, _, bytes => .ok ([], bytes)
  | n + 1, i, bytes =>
    match dec bytes with
    | .error e => .error (e.inPath (.index i))
    | .ok (x, r) =>
      match decodeCount dec n (i + 1) r with
      | .error e => .error e
      | .ok (xs, rest) => .ok (x :: xs, rest)

/-- Modelled from the spec: a countable sequence is its uLEB128 length
followed by that many items. -/
def decodeVec {α : Type} (dec : List Nat → Except DecodeError (α × List Nat))
    (bytes : List Nat) : Except DecodeError (List α × List Nat) :=
  match decodeU32 bytes with
  | .error e => .error e
  | .ok (n, r) => decodeCount dec n 0 r

/-- Modelled from the spec: encoding of a countable sequence, its length as
uLEB128 then the items. -/
def encodeVec {α : Type} (enc : α → List Nat) (xs : List α) : List Nat :=
  encodeU32 xs.length ++ (xs.map enc).flatten

/-- Payload of the `BrTable` variant: the branch label vector then the
fallback label, in declaration order. -/
def decodeBrTablePayload (bytes : List Nat) :
    Except DecodeError ((List LabelId × LabelId) × List Nat) :=
  match decodeVec LabelId.decode bytes with
  | .error e => .error e
  | .ok (branches, r) =>
    match LabelId.decode r with
    | .error e => .error e
    | .ok (otherwise, r2) => .ok ((branches, otherwise), r2)

set_option maxHeartbeats 2000000 in
/-- WebAssembly instruction set as declared in `src/instructions/mod.rs`
(base configuration: the variants behind the `exception-handling` and
`threads` cargo features are excluded).  Structured control flow is flat:
a start marker, the block's contents and an `End`, all in one list.  The
`Misc` (0xFC) and `SIMD` (0xFD) second-level sums live in crate files not
available under `src/`; following the spec they carry a uLEB128
sub-opcode, modelled here as that bare sub-opcode. -/
inductive Instruction where
  | Unreachable
  | Nop
  | BlockStart (b : BlockType)
  | LoopStart (b : BlockType)
  | IfStart (b : BlockType)
  | IfElse
  | End
  | Br (l : LabelId)
  | BrIf (l : LabelId)
  | BrTable (branches : List LabelId) (otherwise : LabelId)
  | Return
  | Call (f : FuncId)
  | CallIndirect (c : CallIndirect)
  | ReturnCall (f : FuncId)
  | ReturnCallIndirect (c : CallIndirect)
  | Drop
  | Select
  | SelectWithTypes (types : List ValueType)
  | LocalGet (l : LocalId)
  | LocalSet (l : LocalId)
  | LocalTee (l : LocalId)
  | GlobalGet (g : GlobalId)
  | GlobalSet (g : GlobalId)
  | TableGet (t : TableId)
  | TableSet (t : TableId)
  | I32Load (m : MemArg)
  | I64Load (m : MemArg)
  | F32Load (m : MemArg)
  | F64Load (m : MemArg)
  | I32Load8S (m : MemArg)
  | I32Load8U (m : MemArg)
  | I32Load16S (m : MemArg)
  | I32Load16U (m : MemArg)
  | I64Load8S (m : MemArg)
  | I64Load8U (m : MemArg)
  | I64Load16S (m : MemArg)
  | I64Load16U (m : MemArg)
  | I64Load32S (m : MemArg)
  | I64Load32U (m : MemArg)
  | I32Store (m : MemArg)
  | I64Store (m : MemArg)
  | F32Store (m : MemArg)
  | F64Store (m : MemArg)
  | I32Store8 (m : MemArg)
  | I32Store16 (m : MemArg)
  | I64Store8 (m : MemArg)
  | I64Store16 (m : MemArg)
  | I64Store32 (m : MemArg)
  | MemorySize (m : MemId)
  | MemoryGrow (m : MemId)
  | I32Const (v : Int)
  | I64Const (v : Int)
  | F32Const (c : FloatConst32)
  | F64Const (c : FloatConst64)
  | I32Eqz
  | I32Eq
  | I32Ne
  | I32LtS
  | I32LtU
  | I32GtS
  | I32GtU
  | I32LeS
  | I32LeU
  | I32GeS
  | I32GeU
  | I64Eqz
  | I64Eq
  | I64Ne
  | I64LtS
  | I64LtU
  | I64GtS
  | I64GtU
  | I64LeS
  | I64LeU
  | I64GeS
  | I64GeU
  | F32Eq
  | F32Ne
  | F32Lt
  | F32Gt
  | F32Le
  | F32Ge
  | F64Eq
  | F64Ne
  | F64Lt
  | F64Gt
  | F64Le
  | F64Ge
  | I32Clz
  | I32Ctz
  | I32PopCnt
  | I32Add
  | I32Sub
  | I32Mul
  | I32DivS
  | I32DivU
  | I32RemS
  | I32RemU
  | I32And
  | I32Or
  | I32Xor
  | I32Shl
  | I32ShrS
  | I32ShrU
  | I32RotL
  | I32RotR
  | I64Clz
  | I64Ctz
  | I64PopCnt
  | I64Add
  | I64Sub
  | I64Mul
  | I64DivS
  | I64DivU
  | I64RemS
  | I64RemU
  | I64And
  | I64Or
  | I64Xor
  | I64Shl
  | I64ShrS
  | I64ShrU
  | I64RotL
  | I64RotR
  | F32Abs
  | F32Neg
  | F32Ceil
  | F32Floor
  | F32Trunc
  | F32Nearest
  | F32Sqrt
  | F32Add
  | F32Sub
  | F32Mul
  | F32Div
  | F32Min
  | F32Max
  | F32CopySign
  | F64Abs
  | F64Neg
  | F64Ceil
  | F64Floor
  | F64Trunc
  | F64Nearest
  | F64Sqrt
  | F64Add
  | F64Sub
  | F64Mul
  | F64Div
  | F64Min
  | F64Max
  | F64CopySign
  | I32WrapI64
  | I32TruncF32S
  | I32TruncF332U
  | I32TruncF64S
  | I32TruncF64U
  | I64ExtendI32S
  | I64ExtendI32U
  | I64TruncF32S
  | I64TruncF32U
  | I64TruncF64S
  | I64TruncF64U
  | F32ConvertI32S
  | F32ConvertI32U
  | F32ConvertI64S
  | F32ConvertI64U
  | F32DemoteF64
  | F64ConvertI32S
  | F64ConvertI32U
  | F64ConvertI64S
  | F64ConvertI64U
  | F64PromoteF32
  | I32ReinterpretF32
  | I64ReinterpretF64
  | F32ReinterpretI32
  | F64ReinterpretI64
  | I32Extend8S
  | I32Extend16S
  | I64Extend8S
  | I64Extend16S
  | I64Extend32S
  | RefNull (t : RefType)
  | RefIsNull
  | RefFunc (f : FuncId)
  | Misc (subOpcode : Nat)
  | SIMD (subOpcode : Nat)
deriving Repr

/-- Discriminant byte of each instruction variant, as declared in
`src/instructions/mod.rs`. -/
def Instruction.opcode : Instruction → Nat
  | .Unreachable => 0x00
  | .Nop => 0x01
  | .BlockStart _ => 0x02
  | .LoopStart _ => 0x03
  | .IfStart _ => 0x04
  | .IfElse => 0x05
  | .End => 0x0B
  | .Br _ => 0x0C
  | .BrIf _ => 0x0D
  | .BrTable _ _ => 0x0E
  | .Return => 0x0F
  | .Call _ => 0x10
  | .CallIndirect _ => 0x11
  | .ReturnCall _ => 0x12
  | .ReturnCallIndirect _ => 0x13
  | .Drop => 0x1A
  | .Select => 0x1B
  | .SelectWithTypes _ => 0x1C
  | .LocalGet _ => 0x20
  | .LocalSet _ => 0x21
  | .LocalTee _ => 0x22
  | .GlobalGet _ => 0x23
  | .GlobalSet _ => 0x24
  | .TableGet _ => 0x25
  | .TableSet _ => 0x26
  | .I32Load _ => 0x28
  | .I64Load _ => 0x29
  | .F32Load _ => 0x2A
  | .F64Load _ => 0x2B
  | .I32Load8S _ => 0x2C
  | .I32Load8U _ => 0x2D
  | .I32Load16S _ => 0x2E
  | .I32Load16U _ => 0x2F
  | .I64Load8S _ => 0x30
  | .I64Load8U _ => 0x31
  | .I64Load16S _ => 0x32
  | .I64Load16U _ => 0x33
  | .I64Load32S _ => 0x34
  | .I64Load32U _ => 0x35
  | .I32Store _ => 0x36
  | .I64Store _ => 0x37
  | .F32Store _ => 0x38
  | .F64Store _ => 0x39
  | .I32Store8 _ => 0x3A
  | .I32Store16 _ => 0x3B
  | .I64Store8 _ => 0x3C
  | .I64Store16 _ => 0x3D
  | .I64Store32 _ => 0x3E
  | .MemorySize _ => 0x3F
  | .MemoryGrow _ => 0x40
  | .I32Const _ => 0x41
  | .I64Const _ => 0x42
  | .F32Const _ => 0x43
  | .F64Const _ => 0x44
  | .I32Eqz => 0x45
  | .I32Eq => 0x46
  | .I32Ne => 0x47
  | .I32LtS => 0x48
  | .I32LtU => 0x49
  | .I32GtS => 0x4A
  | .I32GtU => 0x4B
  | .I32LeS => 0x4C
  | .I32LeU => 0x4D
  | .I32GeS => 0x4E
  | .I32GeU => 0x4F
  | .I64Eqz => 0x50
  | .I64Eq => 0x51
  | .I64Ne => 0x52
  | .I64LtS => 0x53
  | .I64LtU => 0x54
  | .I64GtS => 0x55
  | .I64GtU => 0x56
  | .I64LeS => 0x57
  | .I64LeU => 0x58
  | .I64GeS => 0x59
  | .I64GeU => 0x5A
  | .F32Eq => 0x5B
  | .F32Ne => 0x5C
  | .F32Lt => 0x5D
  | .F32Gt => 0x5E
  | .F32Le => 0x5F
  | .F32Ge => 0x60
  | .F64Eq => 0x61
  | .F64Ne => 0x62
  | .F64Lt => 0x63
  | .F64Gt => 0x64
  | .F64Le => 0x65
  | .F64Ge => 0x66
  | .I32Clz => 0x67
  | .I32Ctz => 0x68
  | .I32PopCnt => 0x69
  | .I32Add => 0x6A
  | .I32Sub => 0x6B
  | .I32Mul => 0x6C
  | .I32DivS => 0x6D
  | .I32DivU => 0x6E
  | .I32RemS => 0x6F
  | .I32RemU => 0x70
  | .I32And => 0x71
  | .I32Or => 0x72
  | .I32Xor => 0x73
  | .I32Shl => 0x74
  | .I32ShrS => 0x75
  | .I32ShrU => 0x76
  | .I32RotL => 0x77
  | .I32RotR => 0x78
  | .I64Clz => 0x79
  | .I64Ctz => 0x7A
  | .I64PopCnt => 0x7B
  | .I64Add => 0x7C
  | .I64Sub => 0x7D
  | .I64Mul => 0x7E
  | .I64DivS => 0x7F
  | .I64DivU => 0x80
  | .I64RemS => 0x81
  | .I64RemU => 0x82
  | .I64And => 0x83
  | .I64Or => 0x84
  | .I64Xor => 0x85
  | .I64Shl => 0x86
  | .I64ShrS => 0x87
  | .I64ShrU => 0x88
  | .I64RotL => 0x89
  | .I64RotR => 0x8A
  | .F32Abs => 0x8B
  | .F32Neg => 0x8C
  | .F32Ceil => 0x8D
  | .F32Floor => 0x8E
  | .F32Trunc => 0x8F
  | .F32Nearest => 0x90
  | .F32Sqrt => 0x91
  | .F32Add => 0x92
  | .F32Sub => 0x93
  | .F32Mul => 0x94
  | .F32Div => 0x95
  | .F32Min => 0x96
  | .F32Max => 0x97
  | .F32CopySign => 0x98
  | .F64Abs => 0x99
  | .F64Neg => 0x9A
  | .F64Ceil => 0x9B
  | .F64Floor => 0x9C
  | .F64Trunc => 0x9D
  | .F64Nearest => 0x9E
  | .F64Sqrt => 0x9F
  | .F64Add => 0xA0
  | .F64Sub => 0xA1
  | .F64Mul => 0xA2
  | .F64Div => 0xA3
  | .F64Min => 0xA4
  | .F64Max => 0xA5
  | .F64CopySign => 0xA6
  | .I32WrapI64 => 0xA7
  | .I32TruncF32S => 0xA8
  | .I32TruncF332U => 0xA9
  | .I32TruncF64S => 0xAA
  | .I32TruncF64U => 0xAB
  | .I64ExtendI32S => 0xAC
  | .I64ExtendI32U => 0xAD
  | .I64TruncF32S => 0xAE
  | .I64TruncF32U => 0xAF
  | .I64TruncF64S => 0xB0
  | .I64TruncF64U => 0xB1
  | .F32ConvertI32S => 0xB2
  | .F32ConvertI32U => 0xB3
  | .F32ConvertI64S => 0xB4
  | .F32ConvertI64U => 0xB5
  | .F32DemoteF64 => 0xB6
  | .F64ConvertI32S => 0xB7
  | .F64ConvertI32U => 0xB8
  | .F64ConvertI64S => 0xB9
  | .F64ConvertI64U => 0xBA
  | .F64PromoteF32 => 0xBB
  | .I32ReinterpretF32 => 0xBC
  | .I64ReinterpretF64 => 0xBD
  | .F32ReinterpretI32 => 0xBE
  | .F64ReinterpretI64 => 0xBF
  | .I32Extend8S => 0xC0
  | .I32Extend16S => 0xC1
  | .I64Extend8S => 0xC2
  | .I64Extend16S => 0xC3
  | .I64Extend32S => 0xC4
  | .RefNull _ => 0xD0
  | .RefIsNull => 0xD1
  | .RefFunc _ => 0xD2
  | .Misc _ => 0xFC
  | .SIMD _ => 0xFD

/-- Encoder for `Instruction` following the derive's sum layout: the
discriminant byte then the variant's payload fields in declaration
order. -/
def Instruction.encode : Instruction → List Nat
  | .Unreachable => [0x00]
  | .Nop => [0x01]
  | .BlockStart b => 0x02 :: (b.encode)
  | .LoopStart b => 0x03 :: (b.encode)
  | .IfStart b => 0x04 :: (b.encode)
  | .IfElse => [0x05]
  | .End => [0x0B]
  | .Br l => 0x0C :: (l.encode)
  | .BrIf l => 0x0D :: (l.encode)
  | .BrTable branches otherwise => 0x0E :: (encodeVec LabelId.encode branches ++ otherwise.encode)
  | .Return => [0x0F]
  | .Call f => 0x10 :: (f.encode)
  | .CallIndirect c => 0x11 :: (c.encode)
  | .ReturnCall f => 0x12 :: (f.encode)
  | .ReturnCallIndirect c => 0x13 :: (c.encode)
  | .Drop => [0x1A]
  | .Select => [0x1B]
  | .SelectWithTypes types => 0x1C :: (encodeVec ValueType.encode types)
  | .LocalGet l => 0x20 :: (l.encode)
  | .LocalSet l => 0x21 :: (l.encode)
  | .LocalTee l => 0x22 :: (l.encode)
  | .GlobalGet g => 0x23 :: (g.encode)
  | .GlobalSet g => 0x24 :: (g.encode)
  | .TableGet t => 0x25 :: (t.encode)
  | .TableSet t => 0x26 :: (t.encode)
  | .I32Load m => 0x28 :: (m.encode)
  | .I64Load m => 0x29 :: (m.encode)
  | .F32Load m => 0x2A :: (m.encode)
  | .F64Load m => 0x2B :: (m.encode)
  | .I32Load8S m => 0x2C :: (m.encode)
  | .I32Load8U m => 0x2D :: (m.encode)
  | .I32Load16S m => 0x2E :: (m.encode)
  | .I32Load16U m => 0x2F :: (m.encode)
  | .I64Load8S m => 0x30 :: (m.encode)
  | .I64Load8U m => 0x31 :: (m.encode)
  | .I64Load16S m => 0x32 :: (m.encode)
  | .I64Load16U m => 0x33 :: (m.encode)
  | .I64Load32S m => 0x34 :: (m.encode)
  | .I64Load32U m => 0x35 :: (m.encode)
  | .I32Store m => 0x36 :: (m.encode)
  | .I64Store m => 0x37 :: (m.encode)
  | .F32Store m => 0x38 :: (m.encode)
  | .F64Store m => 0x39 :: (m.encode)
  | .I32Store8 m => 0x3A :: (m.encode)
  | .I32Store16 m => 0x3B :: (m.encode)
  | .I64Store8 m => 0x3C :: (m.encode)
  | .I64Store16 m => 0x3D :: (m.encode)
  | .I64Store32 m => 0x3E :: (m.encode)
  | .MemorySize m => 0x3F :: (m.encode)
  | .MemoryGrow m => 0x40 :: (m.encode)
  | .I32Const v => 0x41 :: (encodeSLeb v)
  | .I64Const v => 0x42 :: (encodeSLeb v)
  | .F32Const c => 0x43 :: (bytesLE 4 c.bits)
  | .F64Const c => 0x44 :: (bytesLE 8 c.bits)
  | .I32Eqz => [0x45]
  | .I32Eq => [0x46]
  | .I32Ne => [0x47]
  | .I32LtS => [0x48]
  | .I32LtU => [0x49]
  | .I32GtS => [0x4A]
  | .I32GtU => [0x4B]
  | .I32LeS => [0x4C]
  | .I32LeU => [0x4D]
  | .I32GeS => [0x4E]
  | .I32GeU => [0x4F]
  | .I64Eqz => [0x50]
  | .I64Eq => [0x51]
  | .I64Ne => [0x52]
  | .I64LtS => [0x53]
  | .I64LtU => [0x54]
  | .I64GtS => [0x55]
  | .I64GtU => [0x56]
  | .I64LeS => [0x57]
  | .I64LeU => [0x58]
  | .I64GeS => [0x59]
  | .I64GeU => [0x5A]
  | .F32Eq => [0x5B]
  | .F32Ne => [0x5C]
  | .F32Lt => [0x5D]
  | .F32Gt => [0x5E]
  | .F32Le => [0x5F]
  | .F32Ge => [0x60]
  | .F64Eq => [0x61]
  | .F64Ne => [0x62]
  | .F64Lt => [0x63]
  | .F64Gt => [0x64]
  | .F64Le => [0x65]
  | .F64Ge => [0x66]
  | .I32Clz => [0x67]
  | .I32Ctz => [0x68]
  | .I32PopCnt => [0x69]
  | .I32Add => [0x6A]
  | .I32Sub => [0x6B]
  | .I32Mul => [0x6C]
  | .I32DivS => [0x6D]
  | .I32DivU => [0x6E]
  | .I32RemS => [0x6F]
  | .I32RemU => [0x70]
  | .I32And => [0x71]
  | .I32Or => [0x72]
  | .I32Xor => [0x73]
  | .I32Shl => [0x74]
  | .I32ShrS => [0x75]
  | .I32ShrU => [0x76]
  | .I32RotL => [0x77]
  | .I32RotR => [0x78]
  | .I64Clz => [0x79]
  | .I64Ctz => [0x7A]
  | .I64PopCnt => [0x7B]
  | .I64Add => [0x7C]
  | .I64Sub => [0x7D]
  | .I64Mul => [0x7E]
  | .I64DivS => [0x7F]
  | .I64DivU => [0x80]
  | .I64RemS => [0x81]
  | .I64RemU => [0x82]
  | .I64And => [0x83]
  | .I64Or => [0x84]
  | .I64Xor => [0x85]
  | .I64Shl => [0x86]
  | .I64ShrS => [0x87]
  | .I64ShrU => [0x88]
  | .I64RotL => [0x89]
  | .I64RotR => [0x8A]
  | .F32Abs => [0x8B]
  | .F32Neg => [0x8C]
  | .F32Ceil => [0x8D]
  | .F32Floor => [0x8E]
  | .F32Trunc => [0x8F]
  | .F32Nearest => [0x90]
  | .F32Sqrt => [0x91]
  | .F32Add => [0x92]
  | .F32Sub => [0x93]
  | .F32Mul => [0x94]
  | .F32Div => [0x95]
  | .F32Min => [0x96]
  | .F32Max => [0x97]
  | .F32CopySign => [0x98]
  | .F64Abs => [0x99]
  | .F64Neg => [0x9A]
  | .F64Ceil => [0x9B]
  | .F64Floor => [0x9C]
  | .F64Trunc => [0x9D]
  | .F64Nearest => [0x9E]
  | .F64Sqrt => [0x9F]
  | .F64Add => [0xA0]
  | .F64Sub => [0xA1]
  | .F64Mul => [0xA2]
  | .F64Div => [0xA3]
  | .F64Min => [0xA4]
  | .F64Max => [0xA5]
  | .F64CopySign => [0xA6]
  | .I32WrapI64 => [0xA7]
  | .I32TruncF32S => [0xA8]
  | .I32TruncF332U => [0xA9]
  | .I32TruncF64S => [0xAA]
  | .I32TruncF64U => [0xAB]
  | .I64ExtendI32S => [0xAC]
  | .I64ExtendI32U => [0xAD]
  | .I64TruncF32S => [0xAE]
  | .I64TruncF32U => [0xAF]
  | .I64TruncF64S => [0xB0]
  | .I64TruncF64U => [0xB1]
  | .F32ConvertI32S => [0xB2]
  | .F32ConvertI32U => [0xB3]
  | .F32ConvertI64S => [0xB4]
  | .F32ConvertI64U => [0xB5]
  | .F32DemoteF64 => [0xB6]
  | .F64ConvertI32S => [0xB7]
  | .F64ConvertI32U => [0xB8]
  | .F64ConvertI64S => [0xB9]
  | .F64ConvertI64U => [0xBA]
  | .F64PromoteF32 => [0xBB]
  | .I32ReinterpretF32 => [0xBC]
  | .I64ReinterpretF64 => [0xBD]
  | .F32ReinterpretI32 => [0xBE]
  | .F64ReinterpretI64 => [0xBF]
  | .I32Extend8S => [0xC0]
  | .I32Extend16S => [0xC1]
  | .I64Extend8S => [0xC2]
  | .I64Extend16S => [0xC3]
  | .I64Extend32S => [0xC4]
  | .RefNull t => 0xD0 :: (t.encode)
  | .RefIsNull => [0xD1]
  | .RefFunc f => 0xD2 :: (f.encode)
  | .Misc subOpcode => 0xFC :: (encodeU32 subOpcode)
  | .SIMD subOpcode => 0xFD :: (encodeU32 subOpcode)

set_option maxRecDepth 16384 in
/-- Decoder dispatch on an already-read discriminant byte
(`Instruction::decode_with_discriminant`): each recognised opcode decodes
the corresponding variant's payload, and an unknown opcode is an
unsupported-discriminant error.  The source's derive-generated match is
transcribed as a chain of discriminant comparisons in declaration
order. -/
def Instruction.decodeWithDiscriminant (d : Nat) (r : List Nat) :
    Except DecodeError (Instruction × List Nat) :=
  if d = 0x00 then .ok (.Unreachable, r)
  else if d = 0x01 then .ok (.Nop, r)
  else if d = 0x02 then mapDecode Instruction.BlockStart (BlockType.decode r)
  else if d = 0x03 then mapDecode Instruction.LoopStart (BlockType.decode r)
  else if d = 0x04 then mapDecode Instruction.IfStart (BlockType.decode r)
  else if d = 0x05 then .ok (.IfElse, r)
  else if d = 0x0B then .ok (.End, r)
  else if d = 0x0C then mapDecode Instruction.Br (LabelId.decode r)
  else if d = 0x0D then mapDecode Instruction.BrIf (LabelId.decode r)
  else if d = 0x0E then mapDecode (fun p => Instruction.BrTable p.1 p.2) (decodeBrTablePayload r)
  else if d = 0x0F then .ok (.Return, r)
  else if d = 0x10 then mapDecode Instruction.Call (FuncId.decode r)
  else if d = 0x11 then mapDecode Instruction.CallIndirect (CallIndirect.decode r)
  else if d = 0x12 then mapDecode Instruction.ReturnCall (FuncId.decode r)
  else if d = 0x13 then mapDecode Instruction.ReturnCallIndirect (CallIndirect.decode r)
  else if d = 0x1A then .ok (.Drop, r)
  else if d = 0x1B then .ok (.Select, r)
  else if d = 0x1C then mapDecode Instruction.SelectWithTypes (decodeVec ValueType.decode r)
  else if d = 0x20 then mapDecode Instruction.LocalGet (LocalId.decode r)
  else if d = 0x21 then mapDecode Instruction.LocalSet (LocalId.decode r)
  else if d = 0x22 then mapDecode Instruction.LocalTee (LocalId.decode r)
  else if d = 0x23 then mapDecode Instruction.GlobalGet (GlobalId.decode r)
  else if d = 0x24 then mapDecode Instruction.GlobalSet (GlobalId.decode r)
  else if d = 0x25 then mapDecode Instruction.TableGet (TableId.decode r)
  else if d = 0x26 then mapDecode Instruction.TableSet (TableId.decode r)
  else if d = 0x28 then mapDecode Instruction.I32Load (MemArg.decode r)
  else if d = 0x29 then mapDecode Instruction.I64Load (MemArg.decode r)
  else if d = 0x2A then mapDecode Instruction.F32Load (MemArg.decode r)
  else if d = 0x2B then mapDecode Instruction.F64Load (MemArg.decode r)
  else if d = 0x2C then mapDecode Instruction.I32Load8S (MemArg.decode r)
  else if d = 0x2D then mapDecode Instruction.I32Load8U (MemArg.decode r)
  else if d = 0x2E then mapDecode Instruction.I32Load16S (MemArg.decode r)
  else if d = 0x2F then mapDecode Instruction.I32Load16U (MemArg.decode r)
  else if d = 0x30 then mapDecode Instruction.I64Load8S (MemArg.decode r)
  else if d = 0x31 then mapDecode Instruction.I64Load8U (MemArg.decode r)
  else if d = 0x32 then mapDecode Instruction.I64Load16S (MemArg.decode r)
  else if d = 0x33 then mapDecode Instruction.I64Load16U (MemArg.decode r)
  else if d = 0x34 then mapDecode Instruction.I64Load32S (MemArg.decode r)
  else if d = 0x35 then mapDecode Instruction.I64Load32U (MemArg.decode r)
  else if d = 0x36 then mapDecode Instruction.I32Store (MemArg.decode r)
  else if d = 0x37 then mapDecode Instruction.I64Store (MemArg.decode r)
  else if d = 0x38 then mapDecode Instruction.F32Store (MemArg.decode r)
  else if d = 0x39 then mapDecode Instruction.F64Store (MemArg.decode r)
  else if d = 0x3A then mapDecode Instruction.I32Store8 (MemArg.decode r)
  else if d = 0x3B then mapDecode Instruction.I32Store16 (MemArg.decode r)
  else if d = 0x3C then mapDecode Instruction.I64Store8 (MemArg.decode r)
  else if d = 0x3D then mapDecode Instruction.I64Store16 (MemArg.decode r)
  else if d = 0x3E then mapDecode Instruction.I64Store32 (MemArg.decode r)
  else if d = 0x3F then mapDecode Instruction.MemorySize (MemId.decode r)
  else if d = 0x40 then mapDecode Instruction.MemoryGrow (MemId.decode r)
  else if d = 0x41 then mapDecode Instruction.I32Const (decodeI32 r)
  else if d = 0x42 then mapDecode Instruction.I64Const (decodeI64 r)
  else if d = 0x43 then mapDecode (fun b => Instruction.F32Const (FloatConst32.mk b)) (decodeBytesLE 4 r)
  else if d = 0x44 then mapDecode (fun b => Instruction.F64Const (FloatConst64.mk b)) (decodeBytesLE 8 r)
  else if d = 0x45 then .ok (.I32Eqz, r)
  else if d = 0x46 then .ok (.I32Eq, r)
  else if d = 0x47 then .ok (.I32Ne, r)
  else if d = 0x48 then .ok (.I32LtS, r)
  else if d = 0x49 then .ok (.I32LtU, r)
  else if d = 0x4A then .ok (.I32GtS, r)
  else if d = 0x4B then .ok (.I32GtU, r)
  else if d = 0x4C then .ok (.I32LeS, r)
  else if d = 0x4D then .ok (.I32LeU, r)
  else if d = 0x4E then .ok (.I32GeS, r)
  else if d = 0x4F then .ok (.I32GeU, r)
  else if d = 0x50 then .ok (.I64Eqz, r)
  else if d = 0x51 then .ok (.I64Eq, r)
  else if d = 0x52 then .ok (.I64Ne, r)
  else if d = 0x53 then .ok (.I64LtS, r)
  else if d = 0x54 then .ok (.I64LtU, r)
  else if d = 0x55 then .ok (.I64GtS, r)
  else if d = 0x56 then .ok (.I64GtU, r)
  else if d = 0x57 then .ok (.I64LeS, r)
  else if d = 0x58 then .ok (.I64LeU, r)
  else if d = 0x59 then .ok (.I64GeS, r)
  else if d = 0x5A then .ok (.I64GeU, r)
  else if d = 0x5B then .ok (.F32Eq, r)
  else if d = 0x5C then .ok (.F32Ne, r)
  else if d = 0x5D then .ok (.F32Lt, r)
  else if d = 0x5E then .ok (.F32Gt, r)
  else if d = 0x5F then .ok (.F32Le, r)
  else if d = 0x60 then .ok (.F32Ge, r)
  else if d = 0x61 then .ok (.F64Eq, r)
  else if d = 0x62 then .ok (.F64Ne, r)
  else if d = 0x63 then .ok (.F64Lt, r)
  else if d = 0x64 then .ok (.F64Gt, r)
  else if d = 0x65 then .ok (.F64Le, r)
  else if d = 0x66 then .ok (.F64Ge, r)
  else if d = 0x67 then .ok (.I32Clz, r)
  else if d = 0x68 then .ok (.I32Ctz, r)
  else if d = 0x69 then .ok (.I32PopCnt, r)
  else if d = 0x6A then .ok (.I32Add, r)
  else if d = 0x6B then .ok (.I32Sub, r)
  else if d = 0x6C then .ok (.I32Mul, r)
  else if d = 0x6D then .ok (.I32DivS, r)
  else if d = 0x6E then .ok (.I32DivU, r)
  else if d = 0x6F then .ok (.I32RemS, r)
  else if d = 0x70 then .ok (.I32RemU, r)
  else if d = 0x71 then .ok (.I32And, r)
  else if d = 0x72 then .ok (.I32Or, r)
  else if d = 0x73 then .ok (.I32Xor, r)
  else if d = 0x74 then .ok (.I32Shl, r)
  else if d = 0x75 then .ok (.I32ShrS, r)
  else if d = 0x76 then .ok (.I32ShrU, r)
  else if d = 0x77 then .ok (.I32RotL, r)
  else if d = 0x78 then .ok (.I32RotR, r)
  else if d = 0x79 then .ok (.I64Clz, r)
  else if d = 0x7A then .ok (.I64Ctz, r)
  else if d = 0x7B then .ok (.I64PopCnt, r)
  else if d = 0x7C then .ok (.I64Add, r)
  else if d = 0x7D then .ok (.I64Sub, r)
  else if d = 0x7E then .ok (.I64Mul, r)
  else if d = 0x7F then .ok (.I64DivS, r)
  else if d = 0x80 then .ok (.I64DivU, r)
  else if d = 0x81 then .ok (.I64RemS, r)
  else if d = 0x82 then .ok (.I64RemU, r)
  else if d = 0x83 then .ok (.I64And, r)
  else if d = 0x84 then .ok (.I64Or, r)
  else if d = 0x85 then .ok (.I64Xor, r)
  else if d = 0x86 then .ok (.I64Shl, r)
  else if d = 0x87 then .ok (.I64ShrS, r)
  else if d = 0x88 then .ok (.I64ShrU, r)
  else if d = 0x89 then .ok (.I64RotL, r)
  else if d = 0x8A then .ok (.I64RotR, r)
  else if d = 0x8B then .ok (.F32Abs, r)
  else if d = 0x8C then .ok (.F32Neg, r)
  else if d = 0x8D then .ok (.F32Ceil, r)
  else if d = 0x8E then .ok (.F32Floor, r)
  else if d = 0x8F then .ok (.F32Trunc, r)
  else if d = 0x90 then .ok (.F32Nearest, r)
  else if d = 0x91 then .ok (.F32Sqrt, r)
  else if d = 0x92 then .ok (.F32Add, r)
  else if d = 0x93 then .ok (.F32Sub, r)
  else if d = 0x94 then .ok (.F32Mul, r)
  else if d = 0x95 then .ok (.F32Div, r)
  else if d = 0x96 then .ok (.F32Min, r)
  else if d = 0x97 then .ok (.F32Max, r)
  else if d = 0x98 then .ok (.F32CopySign, r)
  else if d = 0x99 then .ok (.F64Abs, r)
  else if d = 0x9A then .ok (.F64Neg, r)
  else if d = 0x9B then .ok (.F64Ceil, r)
  else if d = 0x9C then .ok (.F64Floor, r)
  else if d = 0x9D then .ok (.F64Trunc, r)
  else if d = 0x9E then .ok (.F64Nearest, r)
  else if d = 0x9F then .ok (.F64Sqrt, r)
  else if d = 0xA0 then .ok (.F64Add, r)
  else if d = 0xA1 then .ok (.F64Sub, r)
  else if d = 0xA2 then .ok (.F64Mul, r)
  else if d = 0xA3 then .ok (.F64Div, r)
  else if d = 0xA4 then .ok (.F64Min, r)
  else if d = 0xA5 then .ok (.F64Max, r)
  else if d = 0xA6 then .ok (.F64CopySign, r)
  else if d = 0xA7 then .ok (.I32WrapI64, r)
  else if d = 0xA8 then .ok (.I32TruncF32S, r)
  else if d = 0xA9 then .ok (.I32TruncF332U, r)
  else if d = 0xAA then .ok (.I32TruncF64S, r)
  else if d = 0xAB then .ok (.I32TruncF64U, r)
  else if d = 0xAC then .ok (.I64ExtendI32S, r)
  else if d = 0xAD then .ok (.I64ExtendI32U, r)
  else if d = 0xAE then .ok (.I64TruncF32S, r)
  else if d = 0xAF then .ok (.I64TruncF32U, r)
  else if d = 0xB0 then .ok (.I64TruncF64S, r)
  else if d = 0xB1 then .ok (.I64TruncF64U, r)
  else if d = 0xB2 then .ok (.F32ConvertI32S, r)
  else if d = 0xB3 then .ok (.F32ConvertI32U, r)
  else if d = 0xB4 then .ok (.F32ConvertI64S, r)
  else if d = 0xB5 then .ok (.F32ConvertI64U, r)
  else if d = 0xB6 then .ok (.F32DemoteF64, r)
  else if d = 0xB7 then .ok (.F64ConvertI32S, r)
  else if d = 0xB8 then .ok (.F64ConvertI32U, r)
  else if d = 0xB9 then .ok (.F64ConvertI64S, r)
  else if d = 0xBA then .ok (.F64ConvertI64U, r)
  else if d = 0xBB then .ok (.F64PromoteF32, r)
  else if d = 0xBC then .ok (.I32ReinterpretF32, r)
  else if d = 0xBD then .ok (.I64ReinterpretF64, r)
  else if d = 0xBE then .ok (.F32ReinterpretI32, r)
  else if d = 0xBF then .ok (.F64ReinterpretI64, r)
  else if d = 0xC0 then .ok (.I32Extend8S, r)
  else if d = 0xC1 then .ok (.I32Extend16S, r)
  else if d = 0xC2 then .ok (.I64Extend8S, r)
  else if d = 0xC3 then .ok (.I64Extend16S, r)
  else if d = 0xC4 then .ok (.I64Extend32S, r)
  else if d = 0xD0 then mapDecode Instruction.RefNull (RefType.decode r)
  else if d = 0xD1 then .ok (.RefIsNull, r)
  else if d = 0xD2 then mapDecode Instruction.RefFunc (FuncId.decode r)
  else if d = 0xFC then mapDecode Instruction.Misc (decodeU32 r)
  else if d = 0xFD then mapDecode Instruction.SIMD (decodeU32 r)
  else .error ⟨.unsupportedDiscriminant d, []⟩

/-- Depth classification of an instruction: the structured starts, the End
marker, and everything else — the three ways the depth tracker in
`src/instructions/mod.rs` reacts to an instruction. -/
inductive DepthClass where
  | start
  | stop
  | neutral
deriving DecidableEq, Repr

/-- Classifier extracted from the encoder's match on instructions
(`impl Encode for [Instruction]`): the structured starts increment the
depth, `End` decrements it, everything else leaves it unchanged. -/
def Instruction.depthClass : Instruction → DepthClass
  | .BlockStart _ => .start
  | .LoopStart _ => .start
  | .IfStart _ => .start
  | .End => .stop
  | _ => .neutral

/-- Opcode byte of the structured block start (`src/instructions/mod.rs`). -/
def OP_CODE_BLOCK_START : Nat := 0x02

/-- Opcode byte of the structured loop start (`src/instructions/mod.rs`). -/
def OP_CODE_LOOP_START : Nat := 0x03

/-- Opcode byte of the structured if start (`src/instructions/mod.rs`). -/
def OP_CODE_IF_START : Nat := 0x04

/-- Opcode byte of the `End` marker (`src/instructions/mod.rs`). -/
def OP_CODE_END : Nat := 0x0B

/-- Classifier extracted from the decoder loop's match on opcode bytes
(`impl Decode for Vec<Instruction>`). -/
def opcodeDepthClass (d : Nat) : DepthClass :=
  if d = OP_CODE_BLOCK_START ∨ d = OP_CODE_LOOP_START ∨ d = OP_CODE_IF_START then .start
  else if d = OP_CODE_END then .stop
  else .neutral

theorem mapDecode_eq_ok {α β : Type} {f : α → β} {e : Except DecodeError (α × List Nat)}
    {y : β} {rest : List Nat} (h : mapDecode f e = .ok (y, rest)) :
    ∃ x, e = .ok (x, rest) ∧ y = f x := by
  cases e with
  | error err => exact Except.noConfusion h
  | ok p =>
    obtain ⟨x, r⟩ := p
    refine ⟨x, ?_, ?_⟩
    · injection h with h1
      injection h1 with h2 h3
      rw [h3]
    · injection h with h1
      injection h1 with h2 h3
      exact h2.symm

set_option maxRecDepth 16384 in
/-- A successfully dispatched instruction's constructor matches the opcode
byte it was dispatched on. -/
theorem Instruction.decode_opcode_eq {d : Nat} {r : List Nat} {i : Instruction}
    {r2 : List Nat} (h : Instruction.decodeWithDiscriminant d r = .ok (i, r2)) :
    i.opcode = d := by
  unfold Instruction.decodeWithDiscriminant at h
  by_cases h0 : d = 0x00
  · rw [if_pos h0] at h; injection h with hp; injection hp with hc hr; subst hc; rw [h0]; rfl
  rw [if_neg h0] at h
  by_cases h1 : d = 0x01
  · rw [if_pos h1] at h; injection h with hp; injection hp with hc hr; subst hc; rw [h1]; rfl
  rw [if_neg h1] at h
  by_cases h2 : d = 0x02
  · rw [if_pos h2] at h; obtain ⟨x, hx, rfl⟩ := mapDecode_eq_ok h; rw [h2]; rfl
  rw [if_neg h2] at h
  by_cases h3 : d = 0x03
  · rw [if_pos h3] at h; obtain ⟨x, hx, rfl⟩ := mapDecode_eq_ok h; rw [h3]; rfl
  rw [if_neg h3] at h
  by_cases h4 : d = 0x04
  · rw [if_pos h4] at h; obtain ⟨x, hx, rfl⟩ := mapDecode_eq_ok h; rw [h4]; rfl
  rw [if_neg h4] at h
  by_cases h5 : d = 0x05
  · rw [if_pos h5] at h; injection h with hp; injection hp with hc hr; subst hc; rw [h5]; rfl
  rw [if_neg h5] at h
  by_cases h6 : d = 0x0B
  · rw [if_pos h6] at h; injection h with hp; injection hp with hc hr; subst hc; rw [h6]; rfl
  rw [if_neg h6] at h
  by_cases h7 : d = 0x0C
  · rw [if_pos h7] at h; obtain ⟨x, hx, rfl⟩ := mapDecode_eq_ok h; rw [h7]; rfl
  rw [if_neg h7] at h
  by_cases h8 : d = 0x0D
  · rw [if_pos h8] at h; obtain ⟨x, hx, rfl⟩ := mapDecode_eq_ok h; rw [h8]; rfl
  rw [if_neg h8] at h
  by_cases h9 : d = 0x0E
  · rw [if_pos h9] at h; obtain ⟨x, hx, rfl⟩ := mapDecode_eq_ok h; rw [h9]; rfl
  rw [if_neg h9] at h
  by_cases h10 : d = 0x0F
  · rw [if_pos h10] at h; injection h with hp; injection hp with hc hr; subst hc; rw [h10]; rfl
  rw [if_neg h10] at h
  by_cases h11 : d = 0x10
  · rw [if_pos h11] at h; obtain ⟨x, hx, rfl⟩ := mapDecode_eq_ok h; rw [h11]; rfl
  rw [if_neg h11] at h
  by_cases h12 : d = 0x11
  · rw [if_pos h12] at h; obtain ⟨x, hx, rfl⟩ := mapDecode_eq_ok h; rw [h12]; rfl
  rw [if_neg h12] at h
  by_cases h13 : d = 0x12
  · rw [if_pos h13] at h; obtain ⟨x, hx, rfl⟩ := mapDecode_eq_ok h; rw [h13]; rfl
  rw [if_neg h13] at h
  by_cases h14 : d = 0x13
  · rw [if_pos h14] at h; obtain ⟨x, hx, rfl⟩ := mapDecode_eq_ok h; rw [h14]; rfl
  rw [if_neg h14] at h
  by_cases h15 : d = 0x1A
  · rw [if_pos h15] at h; injection h with hp; injection hp with hc hr; subst hc; rw [h15]; rfl
  rw [if_neg h15] at h
  by_cases h16 : d = 0x1B
  · rw [if_pos h16] at h; injection h with hp; injection hp with hc hr; subst hc; rw [h16]; rfl
  rw [if_neg h16] at h
  by_cases h17 : d = 0x1C
  · rw [if_pos h17] at h; obtain ⟨x, hx, rfl⟩ := mapDecode_eq_ok h; rw [h17]; rfl
  rw [if_neg h17] at h
  by_cases h18 : d = 0x20
  · rw [if_pos h18] at h; obtain ⟨x, hx, rfl⟩ := mapDecode_eq_ok h; rw [h18]; rfl
  rw [if_neg h18] at h
  by_cases h19 : d = 0x21
  · rw [if_pos h19] at h; obtain ⟨x, hx, rfl⟩ := mapDecode_eq_ok h; rw [h19]; rfl
  rw [if_neg h19] at h
  by_cases h20 : d = 0x22
  · rw [if_pos h20] at h; obtain ⟨x, hx, rfl⟩ := mapDecode_eq_ok h; rw [h20]; rfl
  rw [if_neg h20] at h
  by_cases h21 : d = 0x23
  · rw [if_pos h21] at h; obtain ⟨x, hx, rfl⟩ := mapDecode_eq_ok h; rw [h21]; rfl
  rw [if_neg h21] at h
  by_cases h22 : d = 0x24
  · rw [if_pos h22] at h; obtain ⟨x, hx, rfl⟩ := mapDecode_eq_ok h; rw [h22]; rfl
  rw [if_neg h22] at h
  by_cases h23 : d = 0x25
  · rw [if_pos h23] at h; obtain ⟨x, hx, rfl⟩ := mapDecode_eq_ok h; rw [h23]; rfl
  rw [if_neg h23] at h
  by_cases h24 : d = 0x26
  · rw [if_pos h24] at h; obtain ⟨x, hx, rfl⟩ := mapDecode_eq_ok h; rw [h24]; rfl
  rw [if_neg h24] at h
  by_cases h25 : d = 0x28
  · rw [if_pos h25] at h; obtain ⟨x, hx, rfl⟩ := mapDecode_eq_ok h; rw [h25]; rfl
  rw [if_neg h25] at h
  by_cases h26 : d = 0x29
  · rw [if_pos h26] at h; obtain ⟨x, hx, rfl⟩ := mapDecode_eq_ok h; rw [h26]; rfl
  rw [if_neg h26] at h
  by_cases h27 : d = 0x2A
  · rw [if_pos h27] at h; obtain ⟨x, hx, rfl⟩ := mapDecode_eq_ok h; rw [h27]; rfl
  rw [if_neg h27] at h
  by_cases h28 : d = 0x2B
  · rw [if_pos h28] at h; obtain ⟨x, hx, rfl⟩ := mapDecode_eq_ok h; rw [h28]; rfl
  rw [if_neg h28] at h
  by_cases h29 : d = 0x2C
  · rw [if_pos h29] at h; obtain ⟨x, hx, rfl⟩ := mapDecode_eq_ok h; rw [h29]; rfl
  rw [if_neg h29] at h
  by_cases h30 : d = 0x2D
  · rw [if_pos h30] at h; obtain ⟨x, hx, rfl⟩ := mapDecode_eq_ok h; rw [h30]; rfl
  rw [if_neg h30] at h
  by_cases h31 : d = 0x2E
  · rw [if_pos h31] at h; obtain ⟨x, hx, rfl⟩ := mapDecode_eq_ok h; rw [h31]; rfl
  rw [if_neg h31] at h
  by_cases h32 : d = 0x2F
  · rw [if_pos h32] at h; obtain ⟨x, hx, rfl⟩ := mapDecode_eq_ok h; rw [h32]; rfl
  rw [if_neg h32] at h
  by_cases h33 : d = 0x30
  · rw [if_pos h33] at h; obtain ⟨x, hx, rfl⟩ := mapDecode_eq_ok h; rw [h33]; rfl
  rw [if_neg h33] at h
  by_cases h34 : d = 0x31
  · rw [if_pos h34] at h; obtain ⟨x, hx, rfl⟩ := mapDecode_eq_ok h; rw [h34]; rfl
  rw [if_neg h34] at h
  by_cases h35 : d = 0x32
  · rw [if_pos h35] at h; obtain ⟨x, hx, rfl⟩ := mapDecode_eq_ok h; rw [h35]; rfl
  rw [if_neg h35] at h
  by_cases h36 : d = 0x33
  · rw [if_pos h36] at h; obtain ⟨x, hx, rfl⟩ := mapDecode_eq_ok h; rw [h36]; rfl
  rw [if_neg h36] at h
  by_cases h37 : d = 0x34
  · rw [if_pos h37] at h; obtain ⟨x, hx, rfl⟩ := mapDecode_eq_ok h; rw [h37]; rfl
  rw [if_neg h37] at h
  by_cases h38 : d = 0x35
  · rw [if_pos h38] at h; obtain ⟨x, hx, rfl⟩ := mapDecode_eq_ok h; rw [h38]; rfl
  rw [if_neg h38] at h
  by_cases h39 : d = 0x36
  · rw [if_pos h39] at h; obtain ⟨x, hx, rfl⟩ := mapDecode_eq_ok h; rw [h39]; rfl
  rw [if_neg h39] at h
  by_cases h40 : d = 0x37
  · rw [if_pos h40] at h; obtain ⟨x, hx, rfl⟩ := mapDecode_eq_ok h; rw [h40]; rfl
  rw [if_neg h40] at h
  by_cases h41 : d = 0x38
  · rw [if_pos h41] at h; obtain ⟨x, hx, rfl⟩ := mapDecode_eq_ok h; rw [h41]; rfl
  rw [if_neg h41] at h
  by_cases h42 : d = 0x39
  · rw [if_pos h42] at h; obtain ⟨x, hx, rfl⟩ := mapDecode_eq_ok h; rw [h42]; rfl
  rw [if_neg h42] at h
  by_cases h43 : d = 0x3A
  · rw [if_pos h43] at h; obtain ⟨x, hx, rfl⟩ := mapDecode_eq_ok h; rw [h43]; rfl
  rw [if_neg h43] at h
  by_cases h44 : d = 0x3B
  · rw [if_pos h44] at h; obtain ⟨x, hx, rfl⟩ := mapDecode_eq_ok h; rw [h44]; rfl
  rw [if_neg h44] at h
  by_cases h45 : d = 0x3C
  · rw [if_pos h45] at h; obtain ⟨x, hx, rfl⟩ := mapDecode_eq_ok h; rw [h45]; rfl
  rw [if_neg h45] at h
  by_cases h46 : d = 0x3D
  · rw [if_pos h46] at h; obtain ⟨x, hx, rfl⟩ := mapDecode_eq_ok h; rw [h46]; rfl
  rw [if_neg h46] at h
  by_cases h47 : d = 0x3E
  · rw [if_pos h47] at h; obtain ⟨x, hx, rfl⟩ := mapDecode_eq_ok h; rw [h47]; rfl
  rw [if_neg h47] at h
  by_cases h48 : d = 0x3F
  · rw [if_pos h48] at h; obtain ⟨x, hx, rfl⟩ := mapDecode_eq_ok h; rw [h48]; rfl
  rw [if_neg h48] at h
  by_cases h49 : d = 0x40
  · rw [if_pos h49] at h; obtain ⟨x, hx, rfl⟩ := mapDecode_eq_ok h; rw [h49]; rfl
  rw [if_neg h49] at h
  by_cases h50 : d = 0x41
  · rw [if_pos h50] at h; obtain ⟨x, hx, rfl⟩ := mapDecode_eq_ok h; rw [h50]; rfl
  rw [if_neg h50] at h
  by_cases h51 : d = 0x42
  · rw [if_pos h51] at h; obtain ⟨x, hx, rfl⟩ := mapDecode_eq_ok h; rw [h51]; rfl
  rw [if_neg h51] at h
  by_cases h52 : d = 0x43
  · rw [if_pos h52] at h; obtain ⟨x, hx, rfl⟩ := mapDecode_eq_ok h; rw [h52]; rfl
  rw [if_neg h52] at h
  by_cases h53 : d = 0x44
  · rw [if_pos h53] at h; obtain ⟨x, hx, rfl⟩ := mapDecode_eq_ok h; rw [h53]; rfl
  rw [if_neg h53] at h
  by_cases h54 : d = 0x45
  · rw [if_pos h54] at h; injection h with hp; injection hp with hc hr; subst hc; rw [h54]; rfl
  rw [if_neg h54] at h
  by_cases h55 : d = 0x46
  · rw [if_pos h55] at h; injection h with hp; injection hp with hc hr; subst hc; rw [h55]; rfl
  rw [if_neg h55] at h
  by_cases h56 : d = 0x47
  · rw [if_pos h56] at h; injection h with hp; injection hp with hc hr; subst hc; rw [h56]; rfl
  rw [if_neg h56] at h
  by_cases h57 : d = 0x48
  · rw [if_pos h57] at h; injection h with hp; injection hp with hc hr; subst hc; rw [h57]; rfl
  rw [if_neg h57] at h
  by_cases h58 : d = 0x49
  · rw [if_pos h58] at h; injection h with hp; injection hp with hc hr; subst hc; rw [h58]; rfl
  rw [if_neg h58] at h
  by_cases h59 : d = 0x4A
  · rw [if_pos h59] at h; injection h with hp; injection hp with hc hr; subst hc; rw [h59]; rfl
  rw [if_neg h59] at h
  by_cases h60 : d = 0x4B
  · rw [if_pos h60] at h; injection h with hp; injection hp with hc hr; subst hc; rw [h60]; rfl
  rw [if_neg h60] at h
  by_cases h61 : d = 0x4C
  · rw [if_pos h61] at h; injection h with hp; injection hp with hc hr; subst hc; rw [h61]; rfl
  rw [if_neg h61] at h
  by_cases h62 : d = 0x4D
  · rw [if_pos h62] at h; injection h with hp; injection hp with hc hr; subst hc; rw [h62]; rfl
  rw [if_neg h62] at h
  by_cases h63 : d = 0x4E
  · rw [if_pos h63] at h; injection h with hp; injection hp with hc hr; subst hc; rw [h63]; rfl
  rw [if_neg h63] at h
  by_cases h64 : d = 0x4F
  · rw [if_pos h64] at h; injection h with hp; injection hp with hc hr; subst hc; rw [h64]; rfl
  rw [if_neg h64] at h
  by_cases h65 : d = 0x50
  · rw [if_pos h65] at h; injection h with hp; injection hp with hc hr; subst hc; rw [h65]; rfl
  rw [if_neg h65] at h
  by_cases h66 : d = 0x51
  · rw [if_pos h66] at h; injection h with hp; injection hp with hc hr; subst hc; rw [h66]; rfl
  rw [if_neg h66] at h
  by_cases h67 : d = 0x52
  · rw [if_pos h67] at h; injection h with hp; injection hp with hc hr; subst hc; rw [h67]; rfl
  rw [if_neg h67] at h
  by_cases h68 : d = 0x53
  · rw [if_pos h68] at h; injection h with hp; injection hp with hc hr; subst hc; rw [h68]; rfl
  rw [if_neg h68] at h
  by_cases h69 : d = 0x54
  · rw [if_pos h69] at h; injection h with hp; injection hp with hc hr; subst hc; rw [h69]; rfl
  rw [if_neg h69] at h
  by_cases h70 : d = 0x55
  · rw [if_pos h70] at h; injection h with hp; injection hp with hc hr; subst hc; rw [h70]; rfl
  rw [if_neg h70] at h
  by_cases h71 : d = 0x56
  · rw [if_pos h71] at h; injection h with hp; injection hp with hc hr; subst hc; rw [h71]; rfl
  rw [if_neg h71] at h
  by_cases h72 : d = 0x57
  · rw [if_pos h72] at h; injection h with hp; injection hp with hc hr; subst hc; rw [h72]; rfl
  rw [if_neg h72] at h
  by_cases h73 : d = 0x58
  · rw [if_pos h73] at h; injection h with hp; injection hp with hc hr; subst hc; rw [h73]; rfl
  rw [if_neg h73] at h
  by_cases h74 : d = 0x59
  · rw [if_pos h74] at h; injection h with hp; injection hp with hc hr; subst hc; rw [h74]; rfl
  rw [if_neg h74] at h
  by_cases h75 : d = 0x5A
  · rw [if_pos h75] at h; injection h with hp; injection hp with hc hr; subst hc; rw [h75]; rfl
  rw [if_neg h75] at h
  by_cases h76 : d = 0x5B
  · rw [if_pos h76] at h; injection h with hp; injection hp with hc hr; subst hc; rw [h76]; rfl
  rw [if_neg h76] at h
  by_cases h77 : d = 0x5C
  · rw [if_pos h77] at h; injection h with hp; injection hp with hc hr; subst hc; rw [h77]; rfl
  rw [if_neg h77] at h
  by_cases h78 : d = 0x5D
  · rw [if_pos h78] at h; injection h with hp; injection hp with hc hr; subst hc; rw [h78]; rfl
  rw [if_neg h78] at h
  by_cases h79 : d = 0x5E
  · rw [if_pos h79] at h; injection h with hp; injection hp with hc hr; subst hc; rw [h79]; rfl
  rw [if_neg h79] at h
  by_cases h80 : d = 0x5F
  · rw [if_pos h80] at h; injection h with hp; injection hp with hc hr; subst hc; rw [h80]; rfl
  rw [if_neg h80] at h
  by_cases h81 : d = 0x60
  · rw [if_pos h81] at h; injection h with hp; injection hp with hc hr; subst hc; rw [h81]; rfl
  rw [if_neg h81] at h
  by_cases h82 : d = 0x61
  · rw [if_pos h82] at h; injection h with hp; injection hp with hc hr; subst hc; rw [h82]; rfl
  rw [if_neg h82] at h
  by_cases h83 : d = 0x62
  · rw [if_pos h83] at h; injection h with hp; injection hp with hc hr; subst hc; rw [h83]; rfl
  rw [if_neg h83] at h
  by_cases h84 : d = 0x63
  · rw [if_pos h84] at h; injection h with hp; injection hp with hc hr; subst hc; rw [h84]; rfl
  rw [if_neg h84] at h
  by_cases h85 : d = 0x64
  · rw [if_pos h85] at h; injection h with hp; injection hp with hc hr; subst hc; rw [h85]; rfl
  rw [if_neg h85] at h
  by_cases h86 : d = 0x65
  · rw [if_pos h86] at h; injection h with hp; injection hp with hc hr; subst hc; rw [h86]; rfl
  rw [if_neg h86] at h
  by_cases h87 : d = 0x66
  · rw [if_pos h87] at h; injection h with hp; injection hp with hc hr; subst hc; rw [h87]; rfl
  rw [if_neg h87] at h
  by_cases h88 : d = 0x67
  · rw [if_pos h88] at h; injection h with hp; injection hp with hc hr; subst hc; rw [h88]; rfl
  rw [if_neg h88] at h
  by_cases h89 : d = 0x68
  · rw [if_pos h89] at h; injection h with hp; injection hp with hc hr; subst hc; rw [h89]; rfl
  rw [if_neg h89] at h
  by_cases h90 : d = 0x69
  · rw [if_pos h90] at h; injection h with hp; injection hp with hc hr; subst hc; rw [h90]; rfl
  rw [if_neg h90] at h
  by_cases h91 : d = 0x6A
  · rw [if_pos h91] at h; injection h with hp; injection hp with hc hr; subst hc; rw [h91]; rfl
  rw [if_neg h91] at h
  by_cases h92 : d = 0x6B
  · rw [if_pos h92] at h; injection h with hp; injection hp with hc hr; subst hc; rw [h92]; rfl
  rw [if_neg h92] at h
  by_cases h93 : d = 0x6C
  · rw [if_pos h93] at h; injection h with hp; injection hp with hc hr; subst hc; rw [h93]; rfl
  rw [if_neg h93] at h
  by_cases h94 : d = 0x6D
  · rw [if_pos h94] at h; injection h with hp; injection hp with hc hr; subst hc; rw [h94]; rfl
  rw [if_neg h94] at h
  by_cases h95 : d = 0x6E
  · rw [if_pos h95] at h; injection h with hp; injection hp with hc hr; subst hc; rw [h95]; rfl
  rw [if_neg h95] at h
  by_cases h96 : d = 0x6F
  · rw [if_pos h96] at h; injection h with hp; injection hp with hc hr; subst hc; rw [h96]; rfl
  rw [if_neg h96] at h
  by_cases h97 : d = 0x70
  · rw [if_pos h97] at h; injection h with hp; injection hp with hc hr; subst hc; rw [h97]; rfl
  rw [if_neg h97] at h
  by_cases h98 : d = 0x71
  · rw [if_pos h98] at h; injection h with hp; injection hp with hc hr; subst hc; rw [h98]; rfl
  rw [if_neg h98] at h
  by_cases h99 : d = 0x72
  · rw [if_pos h99] at h; injection h with hp; injection hp with hc hr; subst hc; rw [h99]; rfl
  rw [if_neg h99] at h
  by_cases h100 : d = 0x73
  · rw [if_pos h100] at h; injection h with hp; injection hp with hc hr; subst hc; rw [h100]; rfl
  rw [if_neg h100] at h
  by_cases h101 : d = 0x74
  · rw [if_pos h101] at h; injection h with hp; injection hp with hc hr; subst hc; rw [h101]; rfl
  rw [if_neg h101] at h
  by_cases h102 : d = 0x75
  · rw [if_pos h102] at h; injection h with hp; injection hp with hc hr; subst hc; rw [h102]; rfl
  rw [if_neg h102] at h
  by_cases h103 : d = 0x76
  · rw [if_pos h103] at h; injection h with hp; injection hp with hc hr; subst hc; rw [h103]; rfl
  rw [if_neg h103] at h
  by_cases h104 : d = 0x77
  · rw [if_pos h104] at h; injection h with hp; injection hp with hc hr; subst hc; rw [h104]; rfl
  rw [if_neg h104] at h
  by_cases h105 : d = 0x78
  · rw [if_pos h105] at h; injection h with hp; injection hp with hc hr; subst hc; rw [h105]; rfl
  rw [if_neg h105] at h
  by_cases h106 : d = 0x79
  · rw [if_pos h106] at h; injection h with hp; injection hp with hc hr; subst hc; rw [h106]; rfl
  rw [if_neg h106] at h
  by_cases h107 : d = 0x7A
  · rw [if_pos h107] at h; injection h with hp; injection hp with hc hr; subst hc; rw [h107]; rfl
  rw [if_neg h107] at h
  by_cases h108 : d = 0x7B
  · rw [if_pos h108] at h; injection h with hp; injection hp with hc hr; subst hc; rw [h108]; rfl
  rw [if_neg h108] at h
  by_cases h109 : d = 0x7C
  · rw [if_pos h109] at h; injection h with hp; injection hp with hc hr; subst hc; rw [h109]; rfl
  rw [if_neg h109] at h
  by_cases h110 : d = 0x7D
  · rw [if_pos h110] at h; injection h with hp; injection hp with hc hr; subst hc; rw [h110]; rfl
  rw [if_neg h110] at h
  by_cases h111 : d = 0x7E
  · rw [if_pos h111] at h; injection h with hp; injection hp with hc hr; subst hc; rw [h111]; rfl
  rw [if_neg h111] at h
  by_cases h112 : d = 0x7F
  · rw [if_pos h112] at h; injection h with hp; injection hp with hc hr; subst hc; rw [h112]; rfl
  rw [if_neg h112] at h
  by_cases h113 : d = 0x80
  · rw [if_pos h113] at h; injection h with hp; injection hp with hc hr; subst hc; rw [h113]; rfl
  rw [if_neg h113] at h
  by_cases h114 : d = 0x81
  · rw [if_pos h114] at h; injection h with hp; injection hp with hc hr; subst hc; rw [h114]; rfl
  rw [if_neg h114] at h
  by_cases h115 : d = 0x82
  · rw [if_pos h115] at h; injection h with hp; injection hp with hc hr; subst hc; rw [h115]; rfl
  rw [if_neg h115] at h
  by_cases h116 : d = 0x83
  · rw [if_pos h116] at h; injection h with hp; injection hp with hc hr; subst hc; rw [h116]; rfl
  rw [if_neg h116] at h
  by_cases h117 : d = 0x84
  · rw [if_pos h117] at h; injection h with hp; injection hp with hc hr; subst hc; rw [h117]; rfl
  rw [if_neg h117] at h
  by_cases h118 : d = 0x85
  · rw [if_pos h118] at h; injection h with hp; injection hp with hc hr; subst hc; rw [h118]; rfl
  rw [if_neg h118] at h
  by_cases h119 : d = 0x86
  · rw [if_pos h119] at h; injection h with hp; injection hp with hc hr; subst hc; rw [h119]; rfl
  rw [if_neg h119] at h
  by_cases h120 : d = 0x87
  · rw [if_pos h120] at h; injection h with hp; injection hp with hc hr; subst hc; rw [h120]; rfl
  rw [if_neg h120] at h
  by_cases h121 : d = 0x88
  · rw [if_pos h121] at h; injection h with hp; injection hp with hc hr; subst hc; rw [h121]; rfl
  rw [if_neg h121] at h
  by_cases h122 : d = 0x89
  · rw [if_pos h122] at h; injection h with hp; injection hp with hc hr; subst hc; rw [h122]; rfl
  rw [if_neg h122] at h
  by_cases h123 : d = 0x8A
  · rw [if_pos h123] at h; injection h with hp; injection hp with hc hr; subst hc; rw [h123]; rfl
  rw [if_neg h123] at h
  by_cases h124 : d = 0x8B
  · rw [if_pos h124] at h; injection h with hp; injection hp with hc hr; subst hc; rw [h124]; rfl
  rw [if_neg h124] at h
  by_cases h125 : d = 0x8C
  · rw [if_pos h125] at h; injection h with hp; injection hp with hc hr; subst hc; rw [h125]; rfl
  rw [if_neg h125] at h
  by_cases h126 : d = 0x8D
  · rw [if_pos h126] at h; injection h with hp; injection hp with hc hr; subst hc; rw [h126]; rfl
  rw [if_neg h126] at h
  by_cases h127 : d = 0x8E
  · rw [if_pos h127] at h; injection h with hp; injection hp with hc hr; subst hc; rw [h127]; rfl
  rw [if_neg h127] at h
  by_cases h128 : d = 0x8F
  · rw [if_pos h128] at h; injection h with hp; injection hp with hc hr; subst hc; rw [h128]; rfl
  rw [if_neg h128] at h
  by_cases h129 : d = 0x90
  · rw [if_pos h129] at h; injection h with hp; injection hp with hc hr; subst hc; rw [h129]; rfl
  rw [if_neg h129] at h
  by_cases h130 : d = 0x91
  · rw [if_pos h130] at h; injection h with hp; injection hp with hc hr; subst hc; rw [h130]; rfl
  rw [if_neg h130] at h
  by_cases h131 : d = 0x92
  · rw [if_pos h131] at h; injection h with hp; injection hp with hc hr; subst hc; rw [h131]; rfl
  rw [if_neg h131] at h
  by_cases h132 : d = 0x93
  · rw [if_pos h132] at h; injection h with hp; injection hp with hc hr; subst hc; rw [h132]; rfl
  rw [if_neg h132] at h
  by_cases h133 : d = 0x94
  · rw [if_pos h133] at h; injection h with hp; injection hp with hc hr; subst hc; rw [h133]; rfl
  rw [if_neg h133] at h
  by_cases h134 : d = 0x95
  · rw [if_pos h134] at h; injection h with hp; injection hp with hc hr; subst hc; rw [h134]; rfl
  rw [if_neg h134] at h
  by_cases h135 : d = 0x96
  · rw [if_pos h135] at h; injection h with hp; injection hp with hc hr; subst hc; rw [h135]; rfl
  rw [if_neg h135] at h
  by_cases h136 : d = 0x97
  · rw [if_pos h136] at h; injection h with hp; injection hp with hc hr; subst hc; rw [h136]; rfl
  rw [if_neg h136] at h
  by_cases h137 : d = 0x98
  · rw [if_pos h137] at h; injection h with hp; injection hp with hc hr; subst hc; rw [h137]; rfl
  rw [if_neg h137] at h
  by_cases h138 : d = 0x99
  · rw [if_pos h138] at h; injection h with hp; injection hp with hc hr; subst hc; rw [h138]; rfl
  rw [if_neg h138] at h
  by_cases h139 : d = 0x9A
  · rw [if_pos h139] at h; injection h with hp; injection hp with hc hr; subst hc; rw [h139]; rfl
  rw [if_neg h139] at h
  by_cases h140 : d = 0x9B
  · rw [if_pos h140] at h; injection h with hp; injection hp with hc hr; subst hc; rw [h140]; rfl
  rw [if_neg h140] at h
  by_cases h141 : d = 0x9C
  · rw [if_pos h141] at h; injection h with hp; injection hp with hc hr; subst hc; rw [h141]; rfl
  rw [if_neg h141] at h
  by_cases h142 : d = 0x9D
  · rw [if_pos h142] at h; injection h with hp; injection hp with hc hr; subst hc; rw [h142]; rfl
  rw [if_neg h142] at h
  by_cases h143 : d = 0x9E
  · rw [if_pos h143] at h; injection h with hp; injection hp with hc hr; subst hc; rw [h143]; rfl
  rw [if_neg h143] at h
  by_cases h144 : d = 0x9F
  · rw [if_pos h144] at h; injection h with hp; injection hp with hc hr; subst hc; rw [h144]; rfl
  rw [if_neg h144] at h
  by_cases h145 : d = 0xA0
  · rw [if_pos h145] at h; injection h with hp; injection hp with hc hr; subst hc; rw [h145]; rfl
  rw [if_neg h145] at h
  by_cases h146 : d = 0xA1
  · rw [if_pos h146] at h; injection h with hp; injection hp with hc hr; subst hc; rw [h146]; rfl
  rw [if_neg h146] at h
  by_cases h147 : d = 0xA2
  · rw [if_pos h147] at h; injection h with hp; injection hp with hc hr; subst hc; rw [h147]; rfl
  rw [if_neg h147] at h
  by_cases h148 : d = 0xA3
  · rw [if_pos h148] at h; injection h with hp; injection hp with hc hr; subst hc; rw [h148]; rfl
  rw [if_neg h148] at h
  by_cases h149 : d = 0xA4
  · rw [if_pos h149] at h; injection h with hp; injection hp with hc hr; subst hc; rw [h149]; rfl
  rw [if_neg h149] at h
  by_cases h150 : d = 0xA5
  · rw [if_pos h150] at h; injection h with hp; injection hp with hc hr; subst hc; rw [h150]; rfl
  rw [if_neg h150] at h
  by_cases h151 : d = 0xA6
  · rw [if_pos h151] at h; injection h with hp; injection hp with hc hr; subst hc; rw [h151]; rfl
  rw [if_neg h151] at h
  by_cases h152 : d = 0xA7
  · rw [if_pos h152] at h; injection h with hp; injection hp with hc hr; subst hc; rw [h152]; rfl
  rw [if_neg h152] at h
  by_cases h153 : d = 0xA8
  · rw [if_pos h153] at h; injection h with hp; injection hp with hc hr; subst hc; rw [h153]; rfl
  rw [if_neg h153] at h
  by_cases h154 : d = 0xA9
  · rw [if_pos h154] at h; injection h with hp; injection hp with hc hr; subst hc; rw [h154]; rfl
  rw [if_neg h154] at h
  by_cases h155 : d = 0xAA
  · rw [if_pos h155] at h; injection h with hp; injection hp with hc hr; subst hc; rw [h155]; rfl
  rw [if_neg h155] at h
  by_cases h156 : d = 0xAB
  · rw [if_pos h156] at h; injection h with hp; injection hp with hc hr; subst hc; rw [h156]; rfl
  rw [if_neg h156] at h
  by_cases h157 : d = 0xAC
  · rw [if_pos h157] at h; injection h with hp; injection hp with hc hr; subst hc; rw [h157]; rfl
  rw [if_neg h157] at h
  by_cases h158 : d = 0xAD
  · rw [if_pos h158] at h; injection h with hp; injection hp with hc hr; subst hc; rw [h158]; rfl
  rw [if_neg h158] at h
  by_cases h159 : d = 0xAE
  · rw [if_pos h159] at h; injection h with hp; injection hp with hc hr; subst hc; rw [h159]; rfl
  rw [if_neg h159] at h
  by_cases h160 : d = 0xAF
  · rw [if_pos h160] at h; injection h with hp; injection hp with hc hr; subst hc; rw [h160]; rfl
  rw [if_neg h160] at h
  by_cases h161 : d = 0xB0
  · rw [if_pos h161] at h; injection h with hp; injection hp with hc hr; subst hc; rw [h161]; rfl
  rw [if_neg h161] at h
  by_cases h162 : d = 0xB1
  · rw [if_pos h162] at h; injection h with hp; injection hp with hc hr; subst hc; rw [h162]; rfl
  rw [if_neg h162] at h
  by_cases h163 : d = 0xB2
  · rw [if_pos h163] at h; injection h with hp; injection hp with hc hr; subst hc; rw [h163]; rfl
  rw [if_neg h163] at h
  by_cases h164 : d = 0xB3
  · rw [if_pos h164] at h; injection h with hp; injection hp with hc hr; subst hc; rw [h164]; rfl
  rw [if_neg h164] at h
  by_cases h165 : d = 0xB4
  · rw [if_pos h165] at h; injection h with hp; injection hp with hc hr; subst hc; rw [h165]; rfl
  rw [if_neg h165] at h
  by_cases h166 : d = 0xB5
  · rw [if_pos h166] at h; injection h with hp; injection hp with hc hr; subst hc; rw [h166]; rfl
  rw [if_neg h166] at h
  by_cases h167 : d = 0xB6
  · rw [if_pos h167] at h; injection h with hp; injection hp with hc hr; subst hc; rw [h167]; rfl
  rw [if_neg h167] at h
  by_cases h168 : d = 0xB7
  · rw [if_pos h168] at h; injection h with hp; injection hp with hc hr; subst hc; rw [h168]; rfl
  rw [if_neg h168] at h
  by_cases h169 : d = 0xB8
  · rw [if_pos h169] at h; injection h with hp; injection hp with hc hr; subst hc; rw [h169]; rfl
  rw [if_neg h169] at h
  by_cases h170 : d = 0xB9
  · rw [if_pos h170] at h; injection h with hp; injection hp with hc hr; subst hc; rw [h170]; rfl
  rw [if_neg h170] at h
  by_cases h171 : d = 0xBA
  · rw [if_pos h171] at h; injection h with hp; injection hp with hc hr; subst hc; rw [h171]; rfl
  rw [if_neg h171] at h
  by_cases h172 : d = 0xBB
  · rw [if_pos h172] at h; injection h with hp; injection hp with hc hr; subst hc; rw [h172]; rfl
  rw [if_neg h172] at h
  by_cases h173 : d = 0xBC
  · rw [if_pos h173] at h; injection h with hp; injection hp with hc hr; subst hc; rw [h173]; rfl
  rw [if_neg h173] at h
  by_cases h174 : d = 0xBD
  · rw [if_pos h174] at h; injection h with hp; injection hp with hc hr; subst hc; rw [h174]; rfl
  rw [if_neg h174] at h
  by_cases h175 : d = 0xBE
  · rw [if_pos h175] at h; injection h with hp; injection hp with hc hr; subst hc; rw [h175]; rfl
  rw [if_neg h175] at h
  by_cases h176 : d = 0xBF
  · rw [if_pos h176] at h; injection h with hp; injection hp with hc hr; subst hc; rw [h176]; rfl
  rw [if_neg h176] at h
  by_cases h177 : d = 0xC0
  · rw [if_pos h177] at h; injection h with hp; injection hp with hc hr; subst hc; rw [h177]; rfl
  rw [if_neg h177] at h
  by_cases h178 : d = 0xC1
  · rw [if_pos h178] at h; injection h with hp; injection hp with hc hr; subst hc; rw [h178]; rfl
  rw [if_neg h178] at h
  by_cases h179 : d = 0xC2
  · rw [if_pos h179] at h; injection h with hp; injection hp with hc hr; subst hc; rw [h179]; rfl
  rw [if_neg h179] at h
  by_cases h180 : d = 0xC3
  · rw [if_pos h180] at h; injection h with hp; injection hp with hc hr; subst hc; rw [h180]; rfl
  rw [if_neg h180] at h
  by_cases h181 : d = 0xC4
  · rw [if_pos h181] at h; injection h with hp; injection hp with hc hr; subst hc; rw [h181]; rfl
  rw [if_neg h181] at h
  by_cases h182 : d = 0xD0
  · rw [if_pos h182] at h; obtain ⟨x, hx, rfl⟩ := mapDecode_eq_ok h; rw [h182]; rfl
  rw [if_neg h182] at h
  by_cases h183 : d = 0xD1
  · rw [if_pos h183] at h; injection h with hp; injection hp with hc hr; subst hc; rw [h183]; rfl
  rw [if_neg h183] at h
  by_cases h184 : d = 0xD2
  · rw [if_pos h184] at h; obtain ⟨x, hx, rfl⟩ := mapDecode_eq_ok h; rw [h184]; rfl
  rw [if_neg h184] at h
  by_cases h185 : d = 0xFC
  · rw [if_pos h185] at h; obtain ⟨x, hx, rfl⟩ := mapDecode_eq_ok h; rw [h185]; rfl
  rw [if_neg h185] at h
  by_cases h186 : d = 0xFD
  · rw [if_pos h186] at h; obtain ⟨x, hx, rfl⟩ := mapDecode_eq_ok h; rw [h186]; rfl
  rw [if_neg h186] at h
  exact Except.noConfusion h


set_option maxRecDepth 8192 in
/-- The instruction-side depth classifier agrees with the opcode-side one
through the discriminant mapping. -/
theorem Instruction.depthClass_opcode (i : Instruction) :
    i.depthClass = opcodeDepthClass i.opcode := by
  cases i <;> rfl

/-- The only encoding failure in the modelled fragment: the mismatched
block depth error (`DepthError` in `src/instructions/mod.rs`). -/
inductive EncodeError where
  | mismatchedBlockDepth
deriving DecidableEq, Repr

/-- Encoder for an instruction list (`impl Encode for [Instruction]` in
`src/instructions/mod.rs`): walk the list tracking the block depth —
increment on the structured starts, decrement on `End` failing on
underflow — and emit each instruction's wire form; at the end of the list
require the depth to be zero and append the closing `End` byte. -/
def encodeInstrSeq : Nat → List Instruction → Except EncodeError (List Nat)
  | depth, [] => if depth = 0 then .ok [OP_CODE_END] else .error .mismatchedBlockDepth
  | depth, instr :: rest =>
    match instr.depthClass with
    | .start =>
      match encodeInstrSeq (depth + 1) rest with
      | .error e => .error e
      | .ok bs => .ok (instr.encode ++ bs)
    | .stop =>
      if depth = 0 then .error .mismatchedBlockDepth
      else
        match encodeInstrSeq (depth - 1) rest with
        | .error e => .error e
        | .ok bs => .ok (instr.encode ++ bs)
    | .neutral =>
      match encodeInstrSeq depth rest with
      | .error e => .error e
      | .ok bs => .ok (instr.encode ++ bs)

/-- Encoder entry point for an expression: the list encoded from depth 0. -/
def encodeExpression (l : List Instruction) : Except EncodeError (List Nat) :=
  encodeInstrSeq 0 l

/-- Decoder for `Vec<Instruction>` (`src/instructions/mod.rs`), fuelled by
the loop iteration count: read an opcode byte; an `End` byte at depth 0
ends the loop, consumed but not pushed; otherwise a structured start
increments the depth, an `End` decrements it, the opcode is dispatched on
and the decoded instruction appended, wrapping failures with the index of
the would-be list entry. -/
def decodeInstrSeq : Nat → Nat → Nat → List Nat → Except DecodeError (List Instruction × List Nat)
  | 0, _, _, _ => .error ⟨.unexpectedEof, []⟩
  | fuel + 1, depth, idx, bytes =>
    match decodeU8 bytes with
    | .error e => .error e
    | .ok (opCode, r) =>
      if opCode = OP_CODE_END ∧ depth = 0 then .ok ([], r)
      else
        let depth2 :=
          match opcodeDepthClass opCode with
          | .start => depth + 1
          | .stop => depth - 1
          | .neutral => depth
        match Instruction.decodeWithDiscriminant opCode r with
        | .error e => .error (e.inPath (.index idx))
        | .ok (instr, r2) =>
          match decodeInstrSeq fuel depth2 (idx + 1) r2 with
          | .error e => .error e
          | .ok (instrs, rest) => .ok (instr :: instrs, rest)

/-- Decoder entry point for an expression.  The fuel bound of one more than
the byte count is never reached: every iteration consumes at least the
opcode byte. -/
def decodeExpression (bytes : List Nat) : Except DecodeError (List Instruction × List Nat) :=
  decodeInstrSeq (bytes.length + 1) 0 0 bytes

/-- The instruction-list decoding loop exactly as the specification
describes it: a depth counter starting at 0; each structured start opcode
increments the counter and the decoded instruction is pushed; on the `End`
opcode, a zero counter terminates the loop with the byte consumed and
discarded, and a positive counter is decremented with an `End` instruction
pushed directly; every other opcode dispatches to the sum-type decoder; a
failing instruction decode is wrapped with a path frame carrying its list
index. -/
def specDecodeInstrSeq : Nat → Nat → Nat → List Nat → Except DecodeError (List Instruction × List Nat)
  | 0, _, _, _ => .error ⟨.unexpectedEof, []⟩
  | fuel + 1, depth, idx, bytes =>
    match decodeU8 bytes with
    | .error e => .error e
    | .ok (opCode, r) =>
      if opCode = OP_CODE_BLOCK_START ∨ opCode = OP_CODE_LOOP_START ∨ opCode = OP_CODE_IF_START then
        match Instruction.decodeWithDiscriminant opCode r with
        | .error e => .error (e.inPath (.index idx))
        | .ok (instr, r2) =>
          match specDecodeInstrSeq fuel (depth + 1) (idx + 1) r2 with
          | .error e => .error e
          | .ok (instrs, rest) => .ok (instr :: instrs, rest)
      else if opCode = OP_CODE_END then
        if depth = 0 then .ok ([], r)
        else
          match specDecodeInstrSeq fuel (depth - 1) (idx + 1) r with
          | .error e => .error e
          | .ok (instrs, rest) => .ok (Instruction.End :: instrs, rest)
      else
        match Instruction.decodeWithDiscriminant opCode r with
        | .error e => .error (e.inPath (.index idx))
        | .ok (instr, r2) =>
          match specDecodeInstrSeq fuel depth (idx + 1) r2 with
          | .error e => .error e
          | .ok (instrs, rest) => .ok (instr :: instrs, rest)

/-- The depth-balance predicate as the specification words it: a running
counter incremented on every structured start and decremented on every
`End` never underflows and finishes at zero. -/
def balancedFrom : Nat → List Instruction → Bool
  | d, [] => d == 0
  | d, i :: rest =>
    match i.depthClass with
    | .start => balancedFrom (d + 1) rest
    | .stop => decide (d ≠ 0) && balancedFrom (d - 1) rest
    | .neutral => balancedFrom d rest

/-- Depth balance of a whole instruction list, from depth zero. -/
def balanced (l : List Instruction) : Bool := balancedFrom 0 l

/-- Modelled from the spec: a section as held by the module skeleton — its
one-byte id and its raw (lazy, never forced) payload bytes (`src/module.rs`
and `src/sections.rs` are not under `src/`). -/
structure Section where
  id : Nat
  payload : List Nat
deriving DecidableEq, Repr

/-- Modelled from the spec: the known section ids of the base
configuration, custom(0) through data-count(12); the exception-tag section
is feature-gated off. -/
def knownSectionId (id : Nat) : Bool := id ≤ 12

/-- Modelled from the spec: the section loop — read (id, length, payload)
triples until end of input, erring on an unrecognized id or a truncated
payload; each payload is kept raw.  Fuelled by the iteration count; every
iteration consumes at least one byte. -/
def decodeSectionsAux : Nat → List Nat → Option (List Section)
  | _, [] => some []
  | 0, _ :: _ => none
  | fuel + 1, id :: r =>
    if knownSectionId id then
      match decodeU32 r with
      | .error _ => none
      | .ok (len, r2) =>
        if len ≤ r2.length then
          match decodeSectionsAux fuel (r2.drop len) with
          | some secs => some (⟨id, r2.take len⟩ :: secs)
          | none => none
        else none
    else none

/-- The magic and version header of a module: `\0asm` then version 1 as a
little-endian 32-bit integer. -/
def moduleMagic : List Nat := [0x00, 0x61, 0x73, 0x6D, 0x01, 0x00, 0x00, 0x00]

/-- Modelled from the spec: a module is its ordered section list. -/
structure Module where
  sections : List Section
deriving DecidableEq, Repr

/-- Modelled from the spec: module decoding — verify the 8 header bytes
exactly, then run the section loop on the remainder. -/
def decodeModule (b : List Nat) : Option Module :=
  if b.take 8 = moduleMagic then
    (decodeSectionsAux (b.length + 1) (b.drop 8)).map Module.mk
  else none

/-- Modelled from the spec: section encoding — the id byte, the payload
length as minimal uLEB128, then the raw payload re-emitted verbatim. -/
def Section.encode (s : Section) : List Nat :=
  s.id :: (encodeU32 s.payload.length ++ s.payload)

/-- Modelled from the spec: module encoding — the header then every
section in stored order. -/
def encodeModule (m : Module) : List Nat :=
  moduleMagic ++ (m.sections.map Section.encode).flatten

theorem decodeULebCore_encode :
    ∀ (groups n : Nat) (r : List Nat), 0 < groups → n < 128 ^ groups →
      decodeULebCore groups (encodeULebAux groups n ++ r) = .ok (n, r) := by
  intro groups
  induction groups with
  | zero => intro n r h; omega
  | succ g ih =>
    intro n r _ hn
    by_cases hsmall : n < 128
    · simp [encodeULebAux, decodeULebCore, hsmall]
    · have hg : 0 < g := by
        rcases Nat.eq_zero_or_pos g with rfl | hpos
        · simp [pow_succ, pow_zero] at hn; omega
        · exact hpos
      have hq : n / 128 < 128 ^ g := by
        rw [pow_succ, mul_comm] at hn
        exact Nat.div_lt_of_lt_mul hn
      have hb : ¬ (n % 128 + 128 < 128) := by omega
      have hval : n / 128 * 128 + (n % 128 + 128 - 128) = n := by omega
      simp only [encodeULebAux, if_neg hsmall, List.cons_append, decodeULebCore, if_neg hb,
        ih (n / 128) r hg hq, hval]

theorem decodeU32_encodeU32 {n : Nat} (hn : n < 2 ^ 32) (r : List Nat) :
    decodeU32 (encodeU32 n ++ r) = .ok (n, r) := by
  have h5 : n < 128 ^ 5 := by
    have h : (2 ^ 32 : Nat) ≤ 128 ^ 5 := by norm_num
    omega
  rw [decodeU32, encodeU32, decodeULebCore_encode 5 n r (by norm_num) h5]
  simp [show n < 4294967296 from hn]

theorem decodeU32_lt {bytes rest : List Nat} {v : Nat}
    (h : decodeU32 bytes = .ok (v, rest)) : v < 2 ^ 32 := by
  unfold decodeU32 at h
  split at h
  · exact Except.noConfusion h
  · split at h
    · injection h with hp
      injection hp with h1 h2
      subst h1
      assumption
    · exact Except.noConfusion h

theorem testBit6_of_land_eq_zero {a : Nat} (h : a &&& 64 = 0) : a.testBit 6 = false := by
  have h6 := congrArg (fun x => Nat.testBit x 6) h
  simpa [Nat.testBit_land, show Nat.testBit 64 6 = true from by decide] using h6

theorem land_mask_self {a : Nat} (h32 : a < 2 ^ 32) (h6 : a &&& 64 = 0) :
    a &&& 0xFFFFFFBF = a := by
  have hb : a.testBit 6 = false := testBit6_of_land_eq_zero h6
  apply Nat.eq_of_testBit_eq
  intro i
  rw [Nat.testBit_land]
  by_cases hi : i < 32
  · by_cases hi6 : i = 6
    · subst hi6
      simp [hb]
    · have hm : Nat.testBit 0xFFFFFFBF i = true := by
        have hx : (0xFFFFFFBF : Nat) = (2 ^ 32 - 1) ^^^ (2 ^ 6) := by decide
        rw [hx, Nat.testBit_xor, Nat.testBit_two_pow_sub_one, Nat.testBit_two_pow]
        simp [hi, hi6, eq_comm]
      simp [hm]
  · have ha : a.testBit i = false := by
      apply Nat.testBit_lt_two_pow
      calc a < 2 ^ 32 := h32
        _ ≤ 2 ^ i := Nat.pow_le_pow_right (by norm_num) (by omega)
    simp [ha]

theorem lor_flag_land_mask {a : Nat} (h32 : a < 2 ^ 32) (h6 : a &&& 64 = 0) :
    (a ||| 64) &&& 0xFFFFFFBF = a := by
  have hdist : (a ||| 64) &&& 0xFFFFFFBF = (a &&& 0xFFFFFFBF) ||| (64 &&& 0xFFFFFFBF) := by
    rw [Nat.and_comm, Nat.and_or_distrib_left, Nat.and_comm 0xFFFFFFBF a,
      Nat.and_comm 0xFFFFFFBF 64]
  rw [hdist, land_mask_self h32 h6, show (64 : Nat) &&& 0xFFFFFFBF = 0 from by decide,
    Nat.or_zero]

theorem lor_flag_land_flag (a : Nat) : (a ||| 64) &&& 64 ≠ 0 := by
  intro h
  have h6 := congrArg (fun x => Nat.testBit x 6) h
  simp [Nat.testBit_land, Nat.testBit_lor, show Nat.testBit 64 6 = true from by decide] at h6

theorem land_mask_land_flag (x : Nat) : (x &&& 0xFFFFFFBF) &&& 64 = 0 := by
  rw [Nat.and_assoc, show (0xFFFFFFBF : Nat) &&& 64 = 0 from by decide, Nat.and_zero]

theorem MULTI_MEMORY_FLAG_eq : MULTI_MEMORY_FLAG = 64 := rfl

theorem MemArg.decode_encode_roundtrip {m : MemArg} (ha : m.align_log2 < 2 ^ 32)
    (hm : m.memory.index < 2 ^ 32) (ho : m.offset < 2 ^ 32)
    (hflag : m.align_log2 &&& 64 = 0) (rest : List Nat) :
    MemArg.decode (m.encode ++ rest) = .ok (m, rest) := by
  obtain ⟨align, ⟨mi⟩, off⟩ := m
  simp only [MemArg.encode, MemArg.decode, MULTI_MEMORY_FLAG_eq] at *
  by_cases hz : mi = 0
  · subst hz
    simp only [ne_eq, not_true_eq_false, if_neg, List.append_assoc, ite_false,
      decodeU32_encodeU32 ha, hflag, decodeU32_encodeU32 ho]
  · have hor : align ||| 64 < 2 ^ 32 := Nat.or_lt_two_pow ha (by norm_num)
    simp only [ne_eq, hz, not_false_eq_true, if_pos, List.append_assoc,
      decodeU32_encodeU32 hor, MemId.decode, MemId.encode, decodeU32_encodeU32 hm,
      Except.map, decodeU32_encodeU32 ho]
    simp [lor_flag_land_flag align, lor_flag_land_mask ha hflag, decodeU32_encodeU32 ho]

theorem MemArg.decode_flag_clear {bytes rest : List Nat} {m : MemArg}
    (h : MemArg.decode bytes = .ok (m, rest)) : m.align_log2 &&& 64 = 0 := by
  unfold MemArg.decode at h
  cases halign : decodeU32 bytes with
  | error e => rw [halign] at h; simp at h
  | ok p =>
    obtain ⟨align0, r⟩ := p
    rw [halign] at h
    rw [MULTI_MEMORY_FLAG_eq] at h
    dsimp only at h
    by_cases hf : align0 &&& 64 ≠ 0
    · rw [if_pos hf] at h
      cases hmem : MemId.decode r with
      | error e => rw [hmem] at h; simp at h
      | ok q =>
        obtain ⟨mem, r2⟩ := q
        rw [hmem] at h
        dsimp only at h
        cases hoff : decodeU32 r2 with
        | error e => rw [hoff] at h; simp at h
        | ok w =>
          obtain ⟨off, r3⟩ := w
          rw [hoff] at h
          simp only [Except.ok.injEq, Prod.mk.injEq] at h
          obtain ⟨h1, h2⟩ := h
          rw [← h1]
          exact land_mask_land_flag align0
    · rw [if_neg hf] at h
      dsimp only at h
      cases hoff : decodeU32 r with
      | error e => rw [hoff] at h; simp at h
      | ok w =>
        obtain ⟨off, r3⟩ := w
        rw [hoff] at h
        simp only [Except.ok.injEq, Prod.mk.injEq] at h
        obtain ⟨h1, h2⟩ := h
        rw [← h1]
        simpa using hf

theorem Instruction.decode_end (r : List Nat) :
    Instruction.decodeWithDiscriminant 0x0B r = .ok (.End, r) := rfl

theorem opcodeDepthClass_stop {op : Nat} (h : opcodeDepthClass op = .stop) :
    op = OP_CODE_END := by
  unfold opcodeDepthClass at h
  split at h
  · exact DepthClass.noConfusion h
  · split at h
    · assumption
    · exact DepthClass.noConfusion h

theorem encodeInstrSeq_ok_bytes :
    ∀ (l : List Instruction) (depth : Nat) (bs : List Nat),
      encodeInstrSeq depth l = .ok bs →
      bs = (l.map Instruction.encode).flatten ++ [OP_CODE_END] := by
  intro l
  induction l with
  | nil =>
    intro depth bs h
    rw [encodeInstrSeq] at h
    by_cases hd : depth = 0
    · rw [if_pos hd] at h
      injection h with h1
      simp [h1.symm]
    · rw [if_neg hd] at h
      exact Except.noConfusion h
  | cons i rest ih =>
    intro depth bs h
    cases hc : i.depthClass with
    | start =>
      simp only [encodeInstrSeq, hc] at h
      cases hrec : encodeInstrSeq (depth + 1) rest with
      | error e => rw [hrec] at h; exact Except.noConfusion h
      | ok bs2 =>
        rw [hrec] at h
        injection h with h1
        subst h1
        simp [ih (depth + 1) bs2 hrec]
    | stop =>
      simp only [encodeInstrSeq, hc] at h
      by_cases hd : depth = 0
      · rw [if_pos hd] at h
        exact Except.noConfusion h
      · rw [if_neg hd] at h
        cases hrec : encodeInstrSeq (depth - 1) rest with
        | error e => rw [hrec] at h; exact Except.noConfusion h
        | ok bs2 =>
          rw [hrec] at h
          injection h with h1
          subst h1
          simp [ih (depth - 1) bs2 hrec]
    | neutral =>
      simp only [encodeInstrSeq, hc] at h
      cases hrec : encodeInstrSeq depth rest with
      | error e => rw [hrec] at h; exact Except.noConfusion h
      | ok bs2 =>
        rw [hrec] at h
        injection h with h1
        subst h1
        simp [ih depth bs2 hrec]

theorem encodeInstrSeq_isOk_iff :
    ∀ (l : List Instruction) (depth : Nat),
      (∃ bs, encodeInstrSeq depth l = .ok bs) ↔ balancedFrom depth l = true := by
  intro l
  induction l with
  | nil =>
    intro depth
    rw [encodeInstrSeq, balancedFrom]
    by_cases hd : depth = 0 <;> simp [hd]
  | cons i rest ih =>
    intro depth
    cases hc : i.depthClass with
    | start =>
      simp only [encodeInstrSeq, hc, balancedFrom]
      have hih := ih (depth + 1)
      cases hrec : encodeInstrSeq (depth + 1) rest with
      | error e => simpa [hrec] using hih
      | ok bs2 => simpa [hrec] using hih
    | stop =>
      simp only [encodeInstrSeq, hc, balancedFrom]
      by_cases hd : depth = 0
      · simp [hd]
      · have hih := ih (depth - 1)
        rw [if_neg hd]
        cases hrec : encodeInstrSeq (depth - 1) rest with
        | error e => simpa [hrec, hd] using hih
        | ok bs2 => simpa [hrec, hd] using hih
    | neutral =>
      simp only [encodeInstrSeq, hc, balancedFrom]
      have hih := ih depth
      cases hrec : encodeInstrSeq depth rest with
      | error e => simpa [hrec] using hih
      | ok bs2 => simpa [hrec] using hih

theorem decodeInstrSeq_balanced :
    ∀ (fuel depth idx : Nat) (bytes : List Nat) (l : List Instruction) (rest : List Nat),
      decodeInstrSeq fuel depth idx bytes = .ok (l, rest) →
      balancedFrom depth l = true := by
  intro fuel
  induction fuel with
  | zero => intro depth idx bytes l rest h; exact Except.noConfusion h
  | succ f ih =>
    intro depth idx bytes l rest h
    rw [decodeInstrSeq] at h
    cases hb : decodeU8 bytes with
    | error e => rw [hb] at h; exact Except.noConfusion h
    | ok p =>
      obtain ⟨op, r⟩ := p
      rw [hb] at h
      dsimp only at h
      by_cases hend : op = OP_CODE_END ∧ depth = 0
      · rw [if_pos hend] at h
        injection h with hp
        injection hp with h1 h2
        subst h1
        simp [balancedFrom, hend.2]
      · rw [if_neg hend] at h
        cases hdec : Instruction.decodeWithDiscriminant op r with
        | error e => rw [hdec] at h; exact Except.noConfusion h
        | ok q =>
          obtain ⟨instr, r2⟩ := q
          rw [hdec] at h
          dsimp only at h
          have hio : instr.depthClass = opcodeDepthClass op := by
            rw [Instruction.depthClass_opcode, Instruction.decode_opcode_eq hdec]
          cases hcls : opcodeDepthClass op with
          | start =>
            rw [hcls] at h hio
            cases hrec : decodeInstrSeq f (depth + 1) (idx + 1) r2 with
            | error e => rw [hrec] at h; exact Except.noConfusion h
            | ok w =>
              obtain ⟨l2, rest2⟩ := w
              rw [hrec] at h
              injection h with hp
              injection hp with h1 h2
              subst h1
              simp only [balancedFrom, hio]
              exact ih (depth + 1) (idx + 1) r2 l2 rest2 hrec
          | stop =>
            rw [hcls] at h hio
            have hop : op = OP_CODE_END := opcodeDepthClass_stop hcls
            have hdne : ¬ depth = 0 := fun hd => hend ⟨hop, hd⟩
            cases hrec : decodeInstrSeq f (depth - 1) (idx + 1) r2 with
            | error e => rw [hrec] at h; exact Except.noConfusion h
            | ok w =>
              obtain ⟨l2, rest2⟩ := w
              rw [hrec] at h
              injection h with hp
              injection hp with h1 h2
              subst h1
              simp only [balancedFrom, hio]
              rw [ih (depth - 1) (idx + 1) r2 l2 rest2 hrec]
              simp [hdne]
          | neutral =>
            rw [hcls] at h hio
            cases hrec : decodeInstrSeq f depth (idx + 1) r2 with
            | error e => rw [hrec] at h; exact Except.noConfusion h
            | ok w =>
              obtain ⟨l2, rest2⟩ := w
              rw [hrec] at h
              injection h with hp
              injection hp with h1 h2
              subst h1
              simp only [balancedFrom, hio]
              exact ih depth (idx + 1) r2 l2 rest2 hrec

theorem decodeInstrSeq_eq_spec :
    ∀ (fuel depth idx : Nat) (bytes : List Nat),
      decodeInstrSeq fuel depth idx bytes = specDecodeInstrSeq fuel depth idx bytes := by
  intro fuel
  induction fuel with
  | zero => intro depth idx bytes; rfl
  | succ f ih =>
    intro depth idx bytes
    cases bytes with
    | nil => rfl
    | cons op r =>
      rw [decodeInstrSeq, specDecodeInstrSeq]
      by_cases hstart : op = OP_CODE_BLOCK_START ∨ op = OP_CODE_LOOP_START ∨ op = OP_CODE_IF_START
      · rcases hstart with rfl | rfl | rfl <;>
          simp [decodeU8, OP_CODE_BLOCK_START, OP_CODE_LOOP_START, OP_CODE_IF_START,
            OP_CODE_END, opcodeDepthClass, ih]
      · by_cases hend : op = OP_CODE_END
        · subst hend
          by_cases hd : depth = 0
          · simp [decodeU8, OP_CODE_END, OP_CODE_BLOCK_START, OP_CODE_LOOP_START,
              OP_CODE_IF_START, hd]
          · simp [decodeU8, OP_CODE_END, OP_CODE_BLOCK_START, OP_CODE_LOOP_START,
              OP_CODE_IF_START, opcodeDepthClass, hd, ih, Instruction.decode_end]
        · have hcls : opcodeDepthClass op = .neutral := by
            unfold opcodeDepthClass
            rw [if_neg hstart, if_neg hend]
          have hniff : ¬(op = OP_CODE_END ∧ depth = 0) := fun hc => hend hc.1
          simp [decodeU8, hniff, hstart, hend, hcls, ih]

theorem decodeSectionsAux_nil (fuel : Nat) : decodeSectionsAux fuel [] = some [] := by
  cases fuel <;> rfl

theorem decodeSectionsAux_inv :
    ∀ (fuel : Nat) (bytes : List Nat) (secs : List Section),
      decodeSectionsAux fuel bytes = some secs →
      ∀ s ∈ secs, s.payload.length < 2 ^ 32 ∧ knownSectionId s.id = true := by
  intro fuel
  induction fuel with
  | zero =>
    intro bytes secs h s hs
    cases bytes with
    | nil =>
      rw [decodeSectionsAux_nil] at h
      injection h with h1
      subst h1
      simp at hs
    | cons b bs => exact Option.noConfusion h
  | succ f ih =>
    intro bytes secs h s hs
    cases bytes with
    | nil =>
      rw [decodeSectionsAux_nil] at h
      injection h with h1
      subst h1
      simp at hs
    | cons id r =>
      rw [decodeSectionsAux] at h
      by_cases hk : knownSectionId id
      · rw [if_pos hk] at h
        cases hlen : decodeU32 r with
        | error e => rw [hlen] at h; exact Option.noConfusion h
        | ok p =>
          obtain ⟨len, r2⟩ := p
          rw [hlen] at h
          dsimp only at h
          by_cases hle : len ≤ r2.length
          · rw [if_pos hle] at h
            cases hrec : decodeSectionsAux f (r2.drop len) with
            | none => rw [hrec] at h; exact Option.noConfusion h
            | some secs2 =>
              rw [hrec] at h
              dsimp only at h
              injection h with h1
              subst h1
              rcases List.mem_cons.mp hs with rfl | hs2
              · constructor
                · simp only [List.length_take]
                  have := decodeU32_lt hlen
                  omega
                · exact hk
              · exact ih (r2.drop len) secs2 hrec s hs2
          · rw [if_neg hle] at h
            exact Option.noConfusion h
      · rw [if_neg hk] at h
        exact Option.noConfusion h

theorem decodeSectionsAux_encode :
    ∀ (secs : List Section) (fuel : Nat),
      (∀ s ∈ secs, s.payload.length < 2 ^ 32 ∧ knownSectionId s.id = true) →
      secs.length < fuel →
      decodeSectionsAux fuel ((secs.map Section.encode).flatten) = some secs := by
  intro secs
  induction secs with
  | nil => intro fuel _ _; exact decodeSectionsAux_nil fuel
  | cons sec rest ih =>
    intro fuel hinv hlt
    cases fuel with
    | zero => omega
    | succ f =>
      obtain ⟨hlen32, hknown⟩ := hinv sec (by simp)
      simp only [List.map_cons, List.flatten_cons, Section.encode, List.cons_append,
        List.append_assoc]
      rw [decodeSectionsAux, if_pos hknown, decodeU32_encodeU32 hlen32]
      dsimp only
      have hle : sec.payload.length ≤ (sec.payload ++ (rest.map Section.encode).flatten).length := by
        simp
      rw [if_pos hle, List.drop_left, List.take_left,
        ih f (fun s hs => hinv s (by simp [hs])) (by simpa using Nat.lt_of_succ_lt_succ (Nat.succ_lt_succ (Nat.lt_of_succ_lt_succ hlt)))]
  
theorem sections_length_le (secs : List Section) :
    secs.length ≤ ((secs.map Section.encode).flatten).length := by
  induction secs with
  | nil => simp
  | cons sec rest ih =>
    simp only [List.map_cons, List.flatten_cons, List.length_append, List.length_cons,
      Section.encode]
    omega

theorem decodeModule_encodeModule {b : List Nat} {m : Module}
    (h : decodeModule b = some m) : decodeModule (encodeModule m) = some m := by
  unfold decodeModule at h
  by_cases hmagic : b.take 8 = moduleMagic
  · rw [if_pos hmagic] at h
    cases hsec : decodeSectionsAux (b.length + 1) (b.drop 8) with
    | none => rw [hsec] at h; exact Option.noConfusion h
    | some secs =>
      rw [hsec] at h
      dsimp only [Option.map] at h
      injection h with h1
      subst h1
      have hinv := decodeSectionsAux_inv _ _ _ hsec
      unfold decodeModule encodeModule
      have htake : (moduleMagic ++ (secs.map Section.encode).flatten).take 8 = moduleMagic :=
        List.take_left' rfl
      have hdrop : (moduleMagic ++ (secs.map Section.encode).flatten).drop 8 =
          (secs.map Section.encode).flatten :=
        List.drop_left' rfl
      rw [if_pos htake, hdrop]
      have hfuel : secs.length <
          (moduleMagic ++ (secs.map Section.encode).flatten).length + 1 := by
        have := sections_length_le secs
        simp only [List.length_append]
        omega
      rw [decodeSectionsAux_encode secs _ hinv hfuel]
      rfl
  · rw [if_neg hmagic] at h
    exact Option.noConfusion h

theorem Catch.roundtrip_decode_encode {c : Catch} (ht : c.target.index < 2 ^ 32)
    (he : ∀ e, c.exception_filter = some e → e.index < 2 ^ 32) (rest : List Nat) :
    Catch.decode (c.encode ++ rest) = .ok (c, rest) := by
  obtain ⟨cr, filt, ⟨ti⟩⟩ := c
  have hti : ti < 2 ^ 32 := ht
  cases cr with
  | false =>
    cases filt with
    | none =>
      simp [Catch.encode, Catch.toRepr, CatchRepr.encode, Catch.decode, CatchRepr.decode,
        decodeU8, LabelId.encode, LabelId.decode, List.append_assoc,
        decodeU32_encodeU32 hti, Except.map, Catch.ofRepr]
    | some e =>
      obtain ⟨ei⟩ := e
      have hei : ei < 2 ^ 32 := he ⟨ei⟩ rfl
      simp [Catch.encode, Catch.toRepr, CatchRepr.encode, Catch.decode, CatchRepr.decode,
        decodeU8, ExceptionId.encode, ExceptionId.decode, LabelId.encode, LabelId.decode,
        List.append_assoc, decodeU32_encodeU32 hei, decodeU32_encodeU32 hti, Except.map,
        Catch.ofRepr]
  | true =>
    cases filt with
    | none =>
      simp [Catch.encode, Catch.toRepr, CatchRepr.encode, Catch.decode, CatchRepr.decode,
        decodeU8, LabelId.encode, LabelId.decode, List.append_assoc,
        decodeU32_encodeU32 hti, Except.map, Catch.ofRepr]
    | some e =>
      obtain ⟨ei⟩ := e
      have hei : ei < 2 ^ 32 := he ⟨ei⟩ rfl
      simp [Catch.encode, Catch.toRepr, CatchRepr.encode, Catch.decode, CatchRepr.decode,
        decodeU8, ExceptionId.encode, ExceptionId.decode, LabelId.encode, LabelId.decode,
        List.append_assoc, decodeU32_encodeU32 hei, decodeU32_encodeU32 hti, Except.map,
        Catch.ofRepr]

/-- C1: for every byte string that decodes successfully to a module, decoding
the bytes produced by encoding that module yields an equal module, including
when the original bytes use non-minimal (overlong) LEB128 encodings. -/
theorem C1_module_decode_encode_roundtrip (b : List Nat) (m : Module)
    (h : decodeModule b = some m) : decodeModule (encodeModule m) = some m :=
  decodeModule_encodeModule h

/-- Witness for C1 at a concrete input whose custom-section length prefix is
the overlong two-byte LEB128 form `80 00` of zero: it decodes, and the
re-encoded module (whose length prefix shrinks to the minimal form) decodes
back to the same module. -/
theorem C1_module_decode_encode_roundtrip_witness :
    decodeModule [0x00, 0x61, 0x73, 0x6D, 0x01, 0x00, 0x00, 0x00, 0x00, 0x80, 0x00]
      = some (Module.mk [⟨0, []⟩]) ∧
    decodeModule (encodeModule (Module.mk [⟨0, []⟩])) = some (Module.mk [⟨0, []⟩]) :=
  ⟨rfl, C1_module_decode_encode_roundtrip
    [0x00, 0x61, 0x73, 0x6D, 0x01, 0x00, 0x00, 0x00, 0x00, 0x80, 0x00]
    (Module.mk [⟨0, []⟩]) rfl⟩

/-- C2: encoding a flat instruction list succeeds exactly when the list is
depth-balanced (the running counter over the structured starts and `End`
never underflows and ends at zero); a success emits the instructions' wire
forms followed by a single trailing `End` byte, an imbalance fails with the
mismatched-block-depth error, and concretely `[BlockStart(Empty), End]`
encodes to `02 40 0B 0B` while `[BlockStart(Empty), End, End]` fails. -/
theorem C2_encode_depth_balance :
    (∀ l : List Instruction, (∃ bs, encodeExpression l = .ok bs) ↔ balanced l = true) ∧
    (∀ (l : List Instruction) (bs : List Nat), encodeExpression l = .ok bs →
      bs = (l.map Instruction.encode).flatten ++ [OP_CODE_END]) ∧
    (∀ l : List Instruction, balanced l = false →
      encodeExpression l = .error .mismatchedBlockDepth) ∧
    encodeExpression [.BlockStart .Empty, .End] = .ok [0x02, 0x40, 0x0B, 0x0B] ∧
    encodeExpression [.BlockStart .Empty, .End, .End] = .error .mismatchedBlockDepth := by
  refine ⟨fun l => encodeInstrSeq_isOk_iff l 0, fun l bs h => encodeInstrSeq_ok_bytes l 0 bs h,
    ?_, rfl, rfl⟩
  intro l hbal
  cases henc : encodeExpression l with
  | error e => cases e; rfl
  | ok bs =>
    have := (encodeInstrSeq_isOk_iff l 0).mp ⟨bs, henc⟩
    rw [balanced] at hbal
    rw [this] at hbal
    exact Bool.noConfusion hbal

/-- Witness for C2: the balanced two-element list encodes (to the stated
bytes), and the unbalanced three-element list fails with the
mismatched-block-depth error. -/
theorem C2_encode_depth_balance_witness :
    balanced [Instruction.BlockStart .Empty, Instruction.End] = true ∧
    (∃ bs, encodeExpression [Instruction.BlockStart .Empty, Instruction.End] = .ok bs) ∧
    balanced [Instruction.BlockStart .Empty, Instruction.End, Instruction.End] = false ∧
    encodeExpression [Instruction.BlockStart .Empty, Instruction.End, Instruction.End]
      = .error .mismatchedBlockDepth ∧
    [0x02, 0x40, 0x0B, 0x0B] =
      ([Instruction.BlockStart .Empty, Instruction.End].map Instruction.encode).flatten
        ++ [OP_CODE_END] :=
  ⟨rfl, (C2_encode_depth_balance.1 [.BlockStart .Empty, .End]).mpr rfl,
    rfl, C2_encode_depth_balance.2.2.1 [.BlockStart .Empty, .End, .End] rfl,
    C2_encode_depth_balance.2.1 [.BlockStart .Empty, .End] [0x02, 0x40, 0x0B, 0x0B] rfl⟩

/-- C3: the instruction-list decoder is exactly the loop the specification
describes — depth counter from 0, structured starts increment, `End` at
depth 0 terminates with the byte consumed and not included, `End` at
positive depth is pushed after decrementing, all other opcodes dispatch to
the sum-type decoder, and a failing instruction decode is wrapped with a
path frame carrying its list index. -/
theorem C3_decode_loop_behavior :
    (∀ (fuel depth idx : Nat) (bytes : List Nat),
      decodeInstrSeq fuel depth idx bytes = specDecodeInstrSeq fuel depth idx bytes) ∧
    decodeExpression [0x0B] = .ok ([], []) ∧
    decodeExpression [0x02, 0x40, 0x0B, 0x0B]
      = .ok ([.BlockStart .Empty, .End], []) ∧
    decodeExpression [0x06] = .error ⟨.unsupportedDiscriminant 0x06, [.index 0]⟩ :=
  ⟨decodeInstrSeq_eq_spec, rfl, rfl, rfl⟩

/-- C9: every successfully decoded instruction list satisfies the encoder's
balance precondition, so re-encoding a decoded list never fails with the
mismatched-block-depth error. -/
theorem C9_decoded_list_reencodes (bytes : List Nat) (l : List Instruction)
    (rest : List Nat) (h : decodeExpression bytes = .ok (l, rest)) :
    balanced l = true ∧ ∃ bs, encodeExpression l = .ok bs := by
  have hbal : balancedFrom 0 l = true :=
    decodeInstrSeq_balanced (bytes.length + 1) 0 0 bytes l rest h
  exact ⟨hbal, (encodeInstrSeq_isOk_iff l 0).mpr hbal⟩

/-- Witness for C9 at the concrete bytes `02 40 0B 0B`: the decoded list is
balanced and re-encodes successfully. -/
theorem C9_decoded_list_reencodes_witness :
    balanced [Instruction.BlockStart .Empty, Instruction.End] = true ∧
    ∃ bs, encodeExpression [Instruction.BlockStart .Empty, Instruction.End] = .ok bs :=
  C9_decoded_list_reencodes [0x02, 0x40, 0x0B, 0x0B]
    [Instruction.BlockStart .Empty, Instruction.End] [] rfl

theorem blockTypeDecode_mv_ok {b : Nat} {r : List Nat} (hb : b ≠ OP_CODE_EMPTY_BLOCK)
    (hvt : ValueType.fromDiscriminant b = none) {v : Int} {rest : List Nat}
    (hv : decodeI64 (b :: r) = .ok (v, rest)) :
    BlockType.decode (b :: r) =
      if 0 ≤ v ∧ v < 2 ^ 32 then .ok (.MultiValue ⟨v.toNat⟩, rest)
      else .error (DecodeError.inPath ⟨.intOutOfRange, []⟩
        (.variant "BlockType::MultiValue")) := by
  rw [BlockType.decode]
  dsimp only [decodeU8]
  rw [if_neg hb, hvt, hv]

theorem blockTypeDecode_mv_error {b : Nat} {r : List Nat} (hb : b ≠ OP_CODE_EMPTY_BLOCK)
    (hvt : ValueType.fromDiscriminant b = none) {e : DecodeError}
    (hv : decodeI64 (b :: r) = .error e) :
    BlockType.decode (b :: r) = .error (e.inPath (.variant "BlockType::MultiValue")) := by
  rw [BlockType.decode]
  dsimp only [decodeU8]
  rw [if_neg hb, hvt, hv]

/-- C4: the BlockType decoder disambiguates on the first byte alone —
`0x40` is Empty, a value-type discriminant is a single value type, and any
other byte is chained back onto the stream and parsed as a signed LEB128
type index; concretely `40` is Empty, `7F` is Value(i32), and `80 01` is
MultiValue with type index 128. -/
theorem C4_blocktype_disambiguation :
    BlockType.decode [0x40] = .ok (.Empty, []) ∧
    BlockType.decode [0x7F] = .ok (.Value .I32, []) ∧
    BlockType.decode [0x80, 0x01] = .ok (.MultiValue ⟨128⟩, []) ∧
    (∀ (b : Nat) (r : List Nat), b ≠ OP_CODE_EMPTY_BLOCK →
      ValueType.fromDiscriminant b = none →
      BlockType.decode (b :: r) =
        match decodeI64 (b :: r) with
        | .error e => .error (e.inPath (.variant "BlockType::MultiValue"))
        | .ok (asI64, rest) =>
          if 0 ≤ asI64 ∧ asI64 < 2 ^ 32 then .ok (.MultiValue ⟨asI64.toNat⟩, rest)
          else .error (DecodeError.inPath ⟨.intOutOfRange, []⟩
            (.variant "BlockType::MultiValue"))) := by
  refine ⟨rfl, rfl, rfl, ?_⟩
  intro b r hb hvt
  cases hv : decodeI64 (b :: r) with
  | error e => rw [blockTypeDecode_mv_error hb hvt hv]
  | ok p =>
    obtain ⟨v, rest⟩ := p
    rw [blockTypeDecode_mv_ok hb hvt hv]

/-- Witness for C4's general branch at the byte `0x80`, which is neither the
empty marker nor a value-type discriminant. -/
theorem C4_blocktype_disambiguation_witness :
    BlockType.decode (0x80 :: [0x01]) =
      match decodeI64 (0x80 :: [0x01]) with
      | .error e => .error (e.inPath (.variant "BlockType::MultiValue"))
      | .ok (asI64, rest) =>
        if 0 ≤ asI64 ∧ asI64 < 2 ^ 32 then .ok (.MultiValue ⟨asI64.toNat⟩, rest)
        else .error (DecodeError.inPath ⟨.intOutOfRange, []⟩
          (.variant "BlockType::MultiValue")) :=
  C4_blocktype_disambiguation.2.2.2 0x80 [0x01] (by decide) rfl

/-- C5 as stated is false: the multi-value branch accepts the value 2^31.
The decoder converts the signed-LEB128 value through `u32::try_from`, which
admits all of `[0, 2^32)`; the byte sequence `80 80 80 80 08`, whose signed
LEB128 value is 2147483648 = 2^31, decodes successfully even though the
claim demands an error for every value at or above 2^31. -/
theorem C5_counterexample_two_pow_31_accepted :
    BlockType.decode [0x80, 0x80, 0x80, 0x80, 0x08]
      = .ok (.MultiValue ⟨2147483648⟩, []) ∧
    decodeI64 [0x80, 0x80, 0x80, 0x80, 0x08] = .ok (2147483648, []) ∧
    2 ^ 31 ≤ (2147483648 : Int) :=
  ⟨rfl, rfl, by norm_num⟩

/-- C5 (amended): when the BlockType decoder takes the multi-value branch
(the first byte is neither `0x40` nor a value-type discriminant), it parses
a signed LEB128 and returns an error for every decoded value that is
negative or at least 2^32; it succeeds exactly on values in [0, 2^32). -/
theorem C5_multivalue_range_amended :
    ∀ (b : Nat) (r : List Nat), b ≠ OP_CODE_EMPTY_BLOCK →
      ValueType.fromDiscriminant b = none →
      (∀ (v : Int) (rest : List Nat), decodeI64 (b :: r) = .ok (v, rest) →
        ((0 ≤ v ∧ v < 2 ^ 32) ↔
          BlockType.decode (b :: r) = .ok (.MultiValue ⟨v.toNat⟩, rest))) ∧
      ((∃ p, BlockType.decode (b :: r) = .ok p) ↔
        (∃ v rest, decodeI64 (b :: r) = .ok (v, rest) ∧ 0 ≤ v ∧ v < 2 ^ 32)) := by
  intro b r hb hvt
  constructor
  · intro v rest hv
    constructor
    · intro hrange
      rw [blockTypeDecode_mv_ok hb hvt hv, if_pos hrange]
    · intro hok
      by_contra hrange
      rw [blockTypeDecode_mv_ok hb hvt hv, if_neg hrange] at hok
      exact Except.noConfusion hok
  · constructor
    · rintro ⟨p, hp⟩
      cases hv : decodeI64 (b :: r) with
      | error e =>
        rw [blockTypeDecode_mv_error hb hvt hv] at hp
        exact Except.noConfusion hp
      | ok q =>
        obtain ⟨v, rest⟩ := q
        by_cases hrange : 0 ≤ v ∧ v < 2 ^ 32
        · exact ⟨v, rest, rfl, hrange.1, hrange.2⟩
        · rw [blockTypeDecode_mv_ok hb hvt hv, if_neg hrange] at hp
          exact Except.noConfusion hp
    · rintro ⟨v, rest, hv, h0, h32⟩
      refine ⟨(.MultiValue ⟨v.toNat⟩, rest), ?_⟩
      rw [blockTypeDecode_mv_ok hb hvt hv, if_pos ⟨h0, h32⟩]

/-- Witness for the amended C5 at the byte sequence `80 01`, whose signed
LEB128 value 128 lies in range and therefore decodes. -/
theorem C5_multivalue_range_amended_witness :
    BlockType.decode (0x80 :: [0x01]) = .ok (.MultiValue ⟨(128 : Int).toNat⟩, []) :=
  ((C5_multivalue_range_amended 0x80 [0x01] (by decide) rfl).1 128 [] rfl).mp (by decide)

/-- C6: MemArg encoding splits on the memory index — a nonzero index sets
bit 6 on the align field and is emitted explicitly, a zero index is
implicit; decoding masks the flag bit off, so a decoded MemArg never has
the flag bit set in its in-memory align field; concretely align 2 with
memory 3 and offset 0 gives bytes `42 03 00`, and with memory 0 gives
`02 00`. -/
theorem C6_memarg_wire_format :
    MULTI_MEMORY_FLAG = 0x40 ∧
    (∀ m : MemArg, m.memory.index ≠ 0 →
      m.encode = encodeU32 (m.align_log2 ||| MULTI_MEMORY_FLAG)
        ++ (MemId.encode m.memory ++ encodeU32 m.offset)) ∧
    (∀ m : MemArg, m.memory.index = 0 →
      m.encode = encodeU32 m.align_log2 ++ encodeU32 m.offset) ∧
    (∀ (bytes rest : List Nat) (m : MemArg), MemArg.decode bytes = .ok (m, rest) →
      m.align_log2 &&& MULTI_MEMORY_FLAG = 0) ∧
    MemArg.encode ⟨2, ⟨3⟩, 0⟩ = [0x42, 0x03, 0x00] ∧
    MemArg.encode ⟨2, ⟨0⟩, 0⟩ = [0x02, 0x00] := by
  refine ⟨rfl, ?_, ?_, ?_, rfl, rfl⟩
  · intro m hm
    rw [MemArg.encode, if_pos hm, List.append_assoc]
  · intro m hm
    rw [MemArg.encode, if_neg (by simp [hm])]
  · intro bytes rest m h
    exact MemArg.decode_flag_clear h

/-- Witness for C6 at concrete memory arguments with nonzero and zero
memory index, and the flag-clear invariant at the decode of `42 03 00`. -/
theorem C6_memarg_wire_format_witness :
    MemArg.encode ⟨2, ⟨3⟩, 0⟩
      = encodeU32 (2 ||| MULTI_MEMORY_FLAG) ++ (MemId.encode ⟨3⟩ ++ encodeU32 0) ∧
    MemArg.encode ⟨2, ⟨0⟩, 0⟩ = encodeU32 2 ++ encodeU32 0 ∧
    (⟨2, ⟨3⟩, 0⟩ : MemArg).align_log2 &&& MULTI_MEMORY_FLAG = 0 :=
  ⟨C6_memarg_wire_format.2.1 ⟨2, ⟨3⟩, 0⟩ (by decide),
   C6_memarg_wire_format.2.2.1 ⟨2, ⟨0⟩, 0⟩ rfl,
   C6_memarg_wire_format.2.2.2.1 [0x42, 0x03, 0x00] [] ⟨2, ⟨3⟩, 0⟩ rfl⟩

/-- C10: the MemArg round-trip holds exactly under the unstated precondition
that bit 6 of the in-memory align field is clear: with the bit clear (and
the fields in u32 range) decode inverts encode; with the bit set, no
successfully decoded MemArg can ever equal the original, since encoding
emits the bit verbatim and the decoder consumes it as the multi-memory
flag — concretely, align `0x42` with memory 0 and offset 5 encodes to
`42 05`, and decoding those bytes followed by `07` misreads 5 as the
memory index and 7 as the offset. -/
theorem C10_memarg_roundtrip_flag_precondition :
    (∀ (m : MemArg) (r : List Nat), m.align_log2 < 2 ^ 32 → m.memory.index < 2 ^ 32 →
      m.offset < 2 ^ 32 → m.align_log2 &&& MULTI_MEMORY_FLAG = 0 →
      MemArg.decode (m.encode ++ r) = .ok (m, r)) ∧
    (∀ m : MemArg, m.align_log2 &&& MULTI_MEMORY_FLAG ≠ 0 →
      ∀ (bytes rest : List Nat) (m2 : MemArg),
        MemArg.decode bytes = .ok (m2, rest) → m2 ≠ m) ∧
    MemArg.encode ⟨0x42, ⟨0⟩, 5⟩ = [0x42, 0x05] ∧
    MemArg.decode (MemArg.encode ⟨0x42, ⟨0⟩, 5⟩ ++ [0x07])
      = .ok (⟨0x02, ⟨5⟩, 0x07⟩, []) := by
  refine ⟨?_, ?_, rfl, rfl⟩
  · intro m r h1 h2 h3 h4
    exact MemArg.decode_encode_roundtrip h1 h2 h3 h4 r
  · intro m hm bytes rest m2 hdec heq
    exact hm (heq ▸ MemArg.decode_flag_clear hdec)

/-- Witness for C10: the round-trip at a flag-clear MemArg, and the
impossibility of round-tripping the flag-set MemArg `{align 0x42,
memory 0, offset 5}`, shown against the concrete decode of its own encoding
followed by one extra byte. -/
theorem C10_memarg_roundtrip_flag_precondition_witness :
    MemArg.decode (MemArg.encode ⟨2, ⟨3⟩, 7⟩ ++ []) = .ok (⟨2, ⟨3⟩, 7⟩, []) ∧
    (⟨0x02, ⟨5⟩, 0x07⟩ : MemArg) ≠ ⟨0x42, ⟨0⟩, 5⟩ :=
  ⟨C10_memarg_roundtrip_flag_precondition.1 ⟨2, ⟨3⟩, 7⟩ [] (by decide) (by decide)
      (by decide) (by decide),
   C10_memarg_roundtrip_flag_precondition.2.1 ⟨0x42, ⟨0⟩, 5⟩ (by decide)
      (MemArg.encode ⟨0x42, ⟨0⟩, 5⟩ ++ [0x07]) [] ⟨0x02, ⟨5⟩, 0x07⟩ (by rfl)⟩

/-- C8: an AlignedMemArg with fixed alignment N encodes exactly as the
regular MemArg with align N and its own memory and offset; decoding parses
a regular MemArg, succeeds with the parsed memory and offset when the
observed alignment equals N, and otherwise fails with an
unsupported-discriminant error (whose reported value is the parsed offset,
as in the source); a MemArg decode failure propagates unchanged. -/
theorem C8_aligned_memarg_codec :
    (∀ (alignLog2 : Nat) (a : AlignedMemArg),
      AlignedMemArg.encode alignLog2 a = MemArg.encode ⟨alignLog2, a.memory, a.offset⟩) ∧
    (∀ (alignLog2 : Nat) (bytes rest : List Nat) (m : MemArg),
      MemArg.decode bytes = .ok (m, rest) →
      (m.align_log2 = alignLog2 →
        AlignedMemArg.decode alignLog2 bytes = .ok (⟨m.memory, m.offset⟩, rest)) ∧
      (m.align_log2 ≠ alignLog2 →
        AlignedMemArg.decode alignLog2 bytes
          = .error ⟨.unsupportedDiscriminant m.offset, []⟩)) ∧
    (∀ (alignLog2 : Nat) (bytes : List Nat) (e : DecodeError),
      MemArg.decode bytes = .error e →
      AlignedMemArg.decode alignLog2 bytes = .error e) := by
  refine ⟨fun n a => rfl, ?_, ?_⟩
  · intro n bytes rest m h
    constructor
    · intro he
      rw [AlignedMemArg.decode, h]
      dsimp only
      rw [if_neg (by simp [he])]
    · intro hne
      rw [AlignedMemArg.decode, h]
      dsimp only
      rw [if_pos hne]
  · intro n bytes e h
    rw [AlignedMemArg.decode, h]

/-- Witness for C8 at the bytes `42 03 00` (a MemArg with align 2): decoding
with fixed alignment 2 succeeds, and with fixed alignment 3 fails with the
unsupported-discriminant error carrying the parsed offset 0. -/
theorem C8_aligned_memarg_codec_witness :
    AlignedMemArg.decode 2 [0x42, 0x03, 0x00] = .ok (⟨⟨3⟩, 0⟩, []) ∧
    AlignedMemArg.decode 3 [0x42, 0x03, 0x00]
      = .error ⟨.unsupportedDiscriminant 0, []⟩ :=
  ⟨(C8_aligned_memarg_codec.2.1 2 [0x42, 0x03, 0x00] [] ⟨2, ⟨3⟩, 0⟩ rfl).1 rfl,
   (C8_aligned_memarg_codec.2.1 3 [0x42, 0x03, 0x00] [] ⟨2, ⟨3⟩, 0⟩ rfl).2 (by decide)⟩

/-- C7: the four Catch wire variants (0x00 Catch, 0x01 CatchRef, 0x02
CatchAll, 0x03 CatchAllRef) correspond 1:1 to the combinations of
`catch_ref` and `exception_filter`: an absent filter encodes to the
CatchAll/CatchAllRef discriminants (never to Catch/CatchRef with a dummy
index), each wire variant decodes to exactly the corresponding field
combination, and encode and decode are mutually inverse on Catch values. -/
theorem C7_catch_normalization :
    (∀ (c : Catch) (rest : List Nat), c.target.index < 2 ^ 32 →
      (∀ e, c.exception_filter = some e → e.index < 2 ^ 32) →
      Catch.decode (c.encode ++ rest) = .ok (c, rest)) ∧
    (∀ c : Catch, c.exception_filter = none →
      c.encode = (if c.catch_ref then 0x03 else 0x02) :: c.target.encode) ∧
    (∀ (e t : Nat) (r : List Nat), e < 2 ^ 32 → t < 2 ^ 32 →
      Catch.decode (0x00 :: (encodeU32 e ++ (encodeU32 t ++ r)))
        = .ok (⟨false, some ⟨e⟩, ⟨t⟩⟩, r)) ∧
    (∀ (e t : Nat) (r : List Nat), e < 2 ^ 32 → t < 2 ^ 32 →
      Catch.decode (0x01 :: (encodeU32 e ++ (encodeU32 t ++ r)))
        = .ok (⟨true, some ⟨e⟩, ⟨t⟩⟩, r)) ∧
    (∀ (t : Nat) (r : List Nat), t < 2 ^ 32 →
      Catch.decode (0x02 :: (encodeU32 t ++ r)) = .ok (⟨false, none, ⟨t⟩⟩, r)) ∧
    (∀ (t : Nat) (r : List Nat), t < 2 ^ 32 →
      Catch.decode (0x03 :: (encodeU32 t ++ r)) = .ok (⟨true, none, ⟨t⟩⟩, r)) := by
  refine ⟨fun c rest ht he => Catch.roundtrip_decode_encode ht he rest, ?_, ?_, ?_, ?_, ?_⟩
  · intro c hnone
    obtain ⟨cr, filt, t⟩ := c
    dsimp only at hnone
    subst hnone
    cases cr <;> rfl
  · intro e t r he ht
    have := Catch.roundtrip_decode_encode (c := ⟨false, some ⟨e⟩, ⟨t⟩⟩) ht
      (fun x hx => by injection hx with hx2; rw [← hx2]; exact he) r
    simpa [Catch.encode, Catch.toRepr, CatchRepr.encode, ExceptionId.encode,
      LabelId.encode, List.append_assoc] using this
  · intro e t r he ht
    have := Catch.roundtrip_decode_encode (c := ⟨true, some ⟨e⟩, ⟨t⟩⟩) ht
      (fun x hx => by injection hx with hx2; rw [← hx2]; exact he) r
    simpa [Catch.encode, Catch.toRepr, CatchRepr.encode, ExceptionId.encode,
      LabelId.encode, List.append_assoc] using this
  · intro t r ht
    have := Catch.roundtrip_decode_encode (c := ⟨false, none, ⟨t⟩⟩) ht (fun x hx => by cases hx) r
    simpa [Catch.encode, Catch.toRepr, CatchRepr.encode, LabelId.encode,
      List.append_assoc] using this
  · intro t r ht
    have := Catch.roundtrip_decode_encode (c := ⟨true, none, ⟨t⟩⟩) ht (fun x hx => by cases hx) r
    simpa [Catch.encode, Catch.toRepr, CatchRepr.encode, LabelId.encode,
      List.append_assoc] using this

/-- Witness for C7 at a concrete catch clause with no filter and at one with
filter 7, both with target 5. -/
theorem C7_catch_normalization_witness :
    Catch.decode (Catch.encode ⟨true, none, ⟨5⟩⟩ ++ []) = .ok (⟨true, none, ⟨5⟩⟩, []) ∧
    Catch.decode (Catch.encode ⟨false, some ⟨7⟩, ⟨5⟩⟩ ++ [])
      = .ok (⟨false, some ⟨7⟩, ⟨5⟩⟩, []) ∧
    Catch.encode ⟨true, none, ⟨5⟩⟩ = (if true then 0x03 else 0x02) :: LabelId.encode ⟨5⟩ :=
  ⟨C7_catch_normalization.1 ⟨true, none, ⟨5⟩⟩ [] (by decide) (fun e he => by cases he),
   C7_catch_normalization.1 ⟨false, some ⟨7⟩, ⟨5⟩⟩ [] (by decide)
     (fun e he => by injection he with h2; rw [← h2]; decide),
   C7_catch_normalization.2.1 ⟨true, none, ⟨5⟩⟩ rfl⟩

end Wasmbin
